import Mathlib

/-!
Verification of the sta import-and-metrics engine.

This file gives a shallow embedding of the core of the repository:
the job-metrics calculator (`internal/metrics`, job metrics), the
technician-metrics calculator (`internal/metrics/technician_metrics.go`)
and the batch importer (`internal/importer`), together with theorems
checking the specified properties of those components.

Monetary amounts are `decimal.Decimal` values of the shopspring decimal
library in the source.  Those are arbitrary-precision decimals: `Add`,
`Sub` and `Mul` are exact on the represented value, and `Div` rounds the
quotient to `DivisionPrecision = 16` decimal places, half away from zero.
We model the represented value as a rational number; `divD` below is the
library's `Div`.
-/

namespace Sta

/-- Rounding half away from zero, as shopspring decimal's `DivRound` does. -/
def roundHalfAwayFromZero (q : ℚ) : ℤ :=
  if 0 ≤ q then ⌊q + 1 / 2⌋ else ⌈q - 1 / 2⌉

/-- shopspring decimal's `DivisionPrecision` (number of decimal places kept
by `Div`). -/
def divisionPrecision : ℕ := 16

/-- shopspring decimal's `Div`: the quotient rounded half away from zero to
`DivisionPrecision = 16` decimal places. -/
def divD (a b : ℚ) : ℚ :=
  (roundHalfAwayFromZero (a / b * 10 ^ divisionPrecision) : ℚ) / 10 ^ divisionPrecision

/-- Rounding half away from zero is the identity on integers. -/
theorem roundHalfAwayFromZero_intCast (n : ℤ) :
    roundHalfAwayFromZero (n : ℚ) = n := by
  unfold roundHalfAwayFromZero
  have hfloor : ⌊(n : ℚ) + 1 / 2⌋ = n := by
    rw [Int.floor_eq_iff]
    constructor
    · linarith
    · linarith
  have hceil : ⌈(n : ℚ) - 1 / 2⌉ = n := by
    rw [Int.ceil_eq_iff]
    constructor
    · linarith
    · linarith
  split
  · exact hfloor
  · exact hceil

/-- `Div` agrees with the exact quotient whenever that quotient has at most
16 decimal places (witnessed by the scaled quotient being the integer `n`). -/
theorem divD_eq_div (a b : ℚ) (n : ℤ)
    (h : a / b * 10 ^ divisionPrecision = (n : ℚ)) :
    divD a b = a / b := by
  have h10 : ((10 : ℚ) ^ divisionPrecision) ≠ 0 := by positivity
  have hq : (n : ℚ) / 10 ^ divisionPrecision = a / b := by
    rw [← h, mul_div_assoc, div_self h10, mul_one]
  unfold divD
  rw [h, roundHalfAwayFromZero_intCast, hq]

/-! ## Job metrics calculator

Shallow embedding of `internal/metrics` (job metrics): the types
`JobMetric`, `InvoiceData`, `JobData` and the functions
`CalculateJobMetrics` / `calculateSingleJobMetric`.
-/

/-- Invoice fields needed for the job-metric calculations
(source type `metrics.InvoiceData`). -/
structure InvoiceData where
  id : String
  jobID : String
  costsTotal : ℚ
  isAdjustment : Bool
  deriving Repr, DecidableEq

/-- Job fields needed for the job-metric calculations
(source type `metrics.JobData`). -/
structure JobData where
  id : String
  status : String
  jobsSubtotal : ℚ
  deriving Repr, DecidableEq

/-- Calculated metrics for a single job (source type `metrics.JobMetric`);
`grossMarginPct = none` models an invalid `decimal.NullDecimal`. -/
structure JobMetric where
  jobID : String
  revenue : ℚ
  totalCosts : ℚ
  grossProfit : ℚ
  grossMarginPct : Option ℚ
  invoiceCount : ℕ
  hasAdjustment : Bool
  deriving Repr, DecidableEq

/-- The summation loop of `calculateSingleJobMetric`'s no-adjustment branch:
sum of the cost fields over the non-adjustment invoices. -/
def nonAdjustmentCostSum (invoices : List InvoiceData) : ℚ :=
  invoices.foldl (fun acc inv => if inv.isAdjustment then acc else acc + inv.costsTotal) 0

/-- Source function `calculateSingleJobMetric`: the first adjustment invoice
(if any) replaces the summed costs; gross margin is set only when the revenue
is strictly positive. -/
def calculateSingleJobMetric (job : JobData) (invoices : List InvoiceData) : JobMetric :=
  let adjustmentInvoice := invoices.find? (·.isAdjustment)
  let totalCosts :=
    match adjustmentInvoice with
    | some adj => adj.costsTotal
    | none => nonAdjustmentCostSum invoices
  let grossProfit := job.jobsSubtotal - totalCosts
  { jobID := job.id
    revenue := job.jobsSubtotal
    totalCosts := totalCosts
    grossProfit := grossProfit
    grossMarginPct :=
      if 0 < job.jobsSubtotal then some (divD grossProfit job.jobsSubtotal * 100) else none
    invoiceCount := invoices.length
    hasAdjustment := adjustmentInvoice.isSome }

/-- The grouping `invoicesByJob` of `CalculateJobMetrics`: the invoices of one
job, in input (file) order. -/
def invoicesForJob (invoices : List InvoiceData) (jobID : String) : List InvoiceData :=
  invoices.filter (fun inv => inv.jobID == jobID)

/-- Source function `CalculateJobMetrics`: one metric per completed job with a
non-zero revenue subtotal and at least one invoice; other jobs are skipped. -/
def CalculateJobMetrics (jobs : List JobData) (invoices : List InvoiceData) : List JobMetric :=
  jobs.filterMap (fun job =>
    if job.status ≠ "Completed" then none
    else if job.jobsSubtotal = 0 then none
    else
      let jobInvoices := invoicesForJob invoices job.id
      if jobInvoices.length = 0 then none
      else some (calculateSingleJobMetric job jobInvoices))

/-! Supporting lemmas about the job-metrics calculator. -/

theorem foldl_cost_eq (invoices : List InvoiceData)
    (h : ∀ inv ∈ invoices, inv.isAdjustment = false) (a : ℚ) :
    invoices.foldl (fun acc inv => if inv.isAdjustment then acc else acc + inv.costsTotal) a
      = a + (invoices.map (·.costsTotal)).sum := by
  induction invoices generalizing a with
  | nil => simp
  | cons x xs ih =>
    have hx : x.isAdjustment = false := h x (List.mem_cons_self x xs)
    have hxs : ∀ inv ∈ xs, inv.isAdjustment = false :=
      fun inv hm => h inv (List.mem_cons_of_mem _ hm)
    simp only [List.foldl_cons, List.map_cons, List.sum_cons, hx, Bool.false_eq_true,
      if_false, ih hxs]
    ring

theorem nonAdjustmentCostSum_eq_sum (invoices : List InvoiceData)
    (h : ∀ inv ∈ invoices, inv.isAdjustment = false) :
    nonAdjustmentCostSum invoices = (invoices.map (·.costsTotal)).sum := by
  unfold nonAdjustmentCostSum
  rw [foldl_cost_eq invoices h 0, zero_add]

theorem csjm_jobID (job : JobData) (invs : List InvoiceData) :
    (calculateSingleJobMetric job invs).jobID = job.id := rfl

theorem csjm_revenue (job : JobData) (invs : List InvoiceData) :
    (calculateSingleJobMetric job invs).revenue = job.jobsSubtotal := rfl

theorem csjm_grossProfit (job : JobData) (invs : List InvoiceData) :
    (calculateSingleJobMetric job invs).grossProfit
      = job.jobsSubtotal - (calculateSingleJobMetric job invs).totalCosts := rfl

theorem csjm_grossMarginPct (job : JobData) (invs : List InvoiceData) :
    (calculateSingleJobMetric job invs).grossMarginPct
      = if 0 < job.jobsSubtotal then
          some (divD ((calculateSingleJobMetric job invs).grossProfit) job.jobsSubtotal * 100)
        else none := rfl

theorem csjm_hasAdjustment (job : JobData) (invs : List InvoiceData) :
    (calculateSingleJobMetric job invs).hasAdjustment
      = (invs.find? (·.isAdjustment)).isSome := rfl

theorem csjm_totalCosts_of_find_none (job : JobData) (invs : List InvoiceData)
    (hfind : invs.find? (·.isAdjustment) = none) :
    (calculateSingleJobMetric job invs).totalCosts = nonAdjustmentCostSum invs := by
  simp [calculateSingleJobMetric, hfind]

theorem csjm_totalCosts_of_find_some (job : JobData) (invs : List InvoiceData)
    (adj : InvoiceData) (hfind : invs.find? (·.isAdjustment) = some adj) :
    (calculateSingleJobMetric job invs).totalCosts = adj.costsTotal := by
  simp [calculateSingleJobMetric, hfind]

theorem calculateSingleJobMetric_mem (jobs : List JobData) (invoices : List InvoiceData)
    (job : JobData) (hmem : job ∈ jobs) (hstatus : job.status = "Completed")
    (hrev : job.jobsSubtotal ≠ 0) (hinv : invoicesForJob invoices job.id ≠ []) :
    calculateSingleJobMetric job (invoicesForJob invoices job.id)
      ∈ CalculateJobMetrics jobs invoices := by
  unfold CalculateJobMetrics
  apply List.mem_filterMap.mpr
  refine ⟨job, hmem, ?_⟩
  have h1 : ¬ job.status ≠ "Completed" := by simp [hstatus]
  have h3 : ¬ (invoicesForJob invoices job.id).length = 0 :=
    fun hl => hinv (List.length_eq_zero.mp hl)
  simp only [if_neg h1, if_neg hrev, if_neg h3]

theorem mem_CalculateJobMetrics (jobs : List JobData) (invoices : List InvoiceData)
    (m : JobMetric) (hm : m ∈ CalculateJobMetrics jobs invoices) :
    ∃ job ∈ jobs, job.status = "Completed" ∧ job.jobsSubtotal ≠ 0 ∧
      invoicesForJob invoices job.id ≠ [] ∧
      m = calculateSingleJobMetric job (invoicesForJob invoices job.id) := by
  unfold CalculateJobMetrics at hm
  obtain ⟨job, hjob, heq⟩ := List.mem_filterMap.mp hm
  refine ⟨job, hjob, ?_⟩
  by_cases h1 : job.status ≠ "Completed"
  · rw [if_pos h1] at heq
    exact absurd heq (by simp)
  rw [if_neg h1] at heq
  by_cases h2 : job.jobsSubtotal = 0
  · rw [if_pos h2] at heq
    exact absurd heq (by simp)
  rw [if_neg h2] at heq
  by_cases h3 : (invoicesForJob invoices job.id).length = 0
  · rw [if_pos h3] at heq
    exact absurd heq (by simp)
  rw [if_neg h3] at heq
  refine ⟨not_not.mp h1, h2, fun hnil => h3 (by rw [hnil]; rfl), ?_⟩
  exact (Option.some_inj.mp heq).symm

/-! ## Claims about the job-metrics calculator -/

/-- C1: for every job with status "Completed", a non-zero revenue subtotal and
at least one invoice, none of which is an adjustment invoice, the job-metrics
calculator produces a metric whose total cost is the sum of the cost fields of
all its invoices, whose gross profit is revenue minus total cost, and, when
revenue > 0, whose gross margin percentage is gross profit divided by revenue
times 100 (division being the implementation's decimal division `divD`). -/
theorem jobMetrics_no_adjustment (jobs : List JobData) (invoices : List InvoiceData)
    (job : JobData) (hmem : job ∈ jobs) (hstatus : job.status = "Completed")
    (hrev : job.jobsSubtotal ≠ 0) (hinv : invoicesForJob invoices job.id ≠ [])
    (hnoadj : ∀ inv ∈ invoicesForJob invoices job.id, inv.isAdjustment = false) :
    ∃ m ∈ CalculateJobMetrics jobs invoices,
      m.jobID = job.id ∧
      m.revenue = job.jobsSubtotal ∧
      m.totalCosts = ((invoicesForJob invoices job.id).map (·.costsTotal)).sum ∧
      m.grossProfit = job.jobsSubtotal - m.totalCosts ∧
      (0 < job.jobsSubtotal →
        m.grossMarginPct = some (divD m.grossProfit job.jobsSubtotal * 100)) := by
  refine ⟨calculateSingleJobMetric job (invoicesForJob invoices job.id),
    calculateSingleJobMetric_mem jobs invoices job hmem hstatus hrev hinv, ?_⟩
  have hfind : (invoicesForJob invoices job.id).find? (·.isAdjustment) = none :=
    List.find?_eq_none.mpr (fun inv hm => by simp [hnoadj inv hm])
  refine ⟨rfl, rfl, ?_, csjm_grossProfit _ _, ?_⟩
  · rw [csjm_totalCosts_of_find_none _ _ hfind, nonAdjustmentCostSum_eq_sum _ hnoadj]
  · intro hpos
    rw [csjm_grossMarginPct, if_pos hpos]

/-- C1 witness: revenue 1000 with two non-adjustment invoices of costs 300 and
200 yields total costs 500, gross profit 500 and margin 50. -/
theorem jobMetrics_no_adjustment_witness :
    (∃ m ∈ CalculateJobMetrics [⟨"J1", "Completed", 1000⟩]
        [⟨"I1", "J1", 300, false⟩, ⟨"I2", "J1", 200, false⟩],
      m.jobID = (⟨"J1", "Completed", 1000⟩ : JobData).id ∧
      m.revenue = (⟨"J1", "Completed", 1000⟩ : JobData).jobsSubtotal ∧
      m.totalCosts = ((invoicesForJob [⟨"I1", "J1", 300, false⟩, ⟨"I2", "J1", 200, false⟩]
        (⟨"J1", "Completed", 1000⟩ : JobData).id).map (·.costsTotal)).sum ∧
      m.grossProfit = (⟨"J1", "Completed", 1000⟩ : JobData).jobsSubtotal - m.totalCosts ∧
      ((0 : ℚ) < (⟨"J1", "Completed", 1000⟩ : JobData).jobsSubtotal →
        m.grossMarginPct = some (divD m.grossProfit
          (⟨"J1", "Completed", 1000⟩ : JobData).jobsSubtotal * 100))) ∧
    CalculateJobMetrics [⟨"J1", "Completed", 1000⟩]
        [⟨"I1", "J1", 300, false⟩, ⟨"I2", "J1", 200, false⟩] =
      [⟨"J1", 1000, 500, 500, some 50, 2, false⟩] := by
  constructor
  · exact jobMetrics_no_adjustment _ _ _ (by simp) rfl (by norm_num)
      (by simp [invoicesForJob, List.filter])
      (by
        intro inv hmem
        norm_num [invoicesForJob, List.filter] at hmem
        rcases hmem with rfl | rfl <;> rfl)
  · norm_num [CalculateJobMetrics, calculateSingleJobMetric, invoicesForJob,
      nonAdjustmentCostSum, List.filterMap_cons, List.filter, List.find?,
      -List.length_eq_zero]
    rw [divD_eq_div 500 1000 5000000000000000 (by norm_num [divisionPrecision])]
    norm_num

/-- C2: for every qualifying job whose invoice list contains an adjustment
invoice, total cost is the cost field of the first adjustment invoice in input
order (`List.find?` on the job's invoices in file order), all other invoice
costs are ignored, and the metric is marked as having used an adjustment. -/
theorem jobMetrics_adjustment_override (jobs : List JobData) (invoices : List InvoiceData)
    (job : JobData) (adj : InvoiceData) (hmem : job ∈ jobs)
    (hstatus : job.status = "Completed") (hrev : job.jobsSubtotal ≠ 0)
    (hadj : (invoicesForJob invoices job.id).find? (·.isAdjustment) = some adj) :
    ∃ m ∈ CalculateJobMetrics jobs invoices,
      m.jobID = job.id ∧
      m.totalCosts = adj.costsTotal ∧
      m.hasAdjustment = true ∧
      m.grossProfit = job.jobsSubtotal - adj.costsTotal ∧
      (0 < job.jobsSubtotal →
        m.grossMarginPct = some (divD m.grossProfit job.jobsSubtotal * 100)) := by
  have hinv : invoicesForJob invoices job.id ≠ [] :=
    List.ne_nil_of_mem (List.mem_of_find?_eq_some hadj)
  refine ⟨calculateSingleJobMetric job (invoicesForJob invoices job.id),
    calculateSingleJobMetric_mem jobs invoices job hmem hstatus hrev hinv, ?_⟩
  refine ⟨rfl, csjm_totalCosts_of_find_some _ _ _ hadj, ?_, ?_, ?_⟩
  · rw [csjm_hasAdjustment, hadj]
    rfl
  · rw [csjm_grossProfit, csjm_totalCosts_of_find_some _ _ _ hadj]
  · intro hpos
    rw [csjm_grossMarginPct, if_pos hpos]

/-- C2 witness: adding an adjustment invoice with cost 100 to the job with
revenue 1000 and non-adjustment costs 300 and 200 yields total cost exactly
100, gross profit 900, margin 90, and the adjustment flag set. -/
theorem jobMetrics_adjustment_override_witness :
    (∃ m ∈ CalculateJobMetrics [⟨"J1", "Completed", 1000⟩]
        [⟨"I1", "J1", 300, false⟩, ⟨"I2", "J1", 200, false⟩, ⟨"I3", "J1", 100, true⟩],
      m.jobID = (⟨"J1", "Completed", 1000⟩ : JobData).id ∧
      m.totalCosts = (⟨"I3", "J1", 100, true⟩ : InvoiceData).costsTotal ∧
      m.hasAdjustment = true ∧
      m.grossProfit = (⟨"J1", "Completed", 1000⟩ : JobData).jobsSubtotal -
        (⟨"I3", "J1", 100, true⟩ : InvoiceData).costsTotal ∧
      ((0 : ℚ) < (⟨"J1", "Completed", 1000⟩ : JobData).jobsSubtotal →
        m.grossMarginPct = some (divD m.grossProfit
          (⟨"J1", "Completed", 1000⟩ : JobData).jobsSubtotal * 100))) ∧
    CalculateJobMetrics [⟨"J1", "Completed", 1000⟩]
        [⟨"I1", "J1", 300, false⟩, ⟨"I2", "J1", 200, false⟩, ⟨"I3", "J1", 100, true⟩] =
      [⟨"J1", 1000, 100, 900, some 90, 3, true⟩] := by
  constructor
  · exact jobMetrics_adjustment_override _ _ _ _ (by simp) rfl (by norm_num)
      (by norm_num [invoicesForJob, List.filter, List.find?])
  · norm_num [CalculateJobMetrics, calculateSingleJobMetric, invoicesForJob,
      nonAdjustmentCostSum, List.filterMap_cons, List.filter, List.find?,
      -List.length_eq_zero]
    rw [divD_eq_div 900 1000 9000000000000000 (by norm_num [divisionPrecision])]
    norm_num

/-- C8 counterexample: a completed job with revenue 0 and one invoice yields NO
job-metric row at all — `CalculateJobMetrics` skips zero-revenue jobs — rather
than a row with an absent `gross_margin_pct` as the claim states. -/
theorem jobMetrics_zero_revenue_counterexample :
    CalculateJobMetrics [⟨"J0", "Completed", 0⟩] [⟨"I1", "J0", 25, false⟩] = [] ∧
    ¬ ∃ m ∈ CalculateJobMetrics [⟨"J0", "Completed", 0⟩] [⟨"I1", "J0", 25, false⟩],
        m.grossMarginPct = none := by
  have h : CalculateJobMetrics [⟨"J0", "Completed", 0⟩] [⟨"I1", "J0", 25, false⟩] = [] := by
    norm_num [CalculateJobMetrics, List.filterMap_cons]
  exact ⟨h, by simp [h]⟩

/-- C8 (amended): a completed job with revenue 0 yields no job-metric row at
all (each produced metric has a non-zero revenue), and among produced metrics
the gross margin percentage is present exactly when revenue is greater than
zero (in particular it is absent, not zero, for negative revenue). -/
theorem jobMetrics_margin_presence (jobs : List JobData) (invoices : List InvoiceData)
    (m : JobMetric) (hm : m ∈ CalculateJobMetrics jobs invoices) :
    m.revenue ≠ 0 ∧ (m.grossMarginPct.isSome ↔ 0 < m.revenue) := by
  obtain ⟨job, _, _, hrev, _, hEq⟩ := mem_CalculateJobMetrics jobs invoices m hm
  subst hEq
  unfold calculateSingleJobMetric
  refine ⟨hrev, ?_⟩
  by_cases hpos : 0 < job.jobsSubtotal
  · simp [hpos]
  · simp [hpos]

/-! ## Technician metrics calculator

Shallow embedding of `internal/metrics/technician_metrics.go`: the types
`TechnicianMetric`, `JobTechnicianData`, `JobForTechMetrics` and the
functions `CalculateTechnicianMetrics` / `calculateTechnicianAverages`.
The Go code builds `jobsByID` / `jobMetricsByID` maps (last writer wins),
a per-technician per-job role map, then walks the `jobTechnicians` slice
once, updating the metric of the row's technician; we model the walk
per technician, which touches exactly the same updates in the same order.
-/

/-- Calculated metrics for a single technician (source type
`metrics.TechnicianMetric`); `none` models an invalid `decimal.NullDecimal`. -/
structure TechnicianMetric where
  technicianID : ℤ
  totalJobs : ℕ
  soldJobs : ℕ
  totalSales : ℚ
  avgSale : Option ℚ
  conversionRate : Option ℚ
  totalHoursWorked : ℚ
  avgHoursPerJob : Option ℚ
  totalEstimates : ℤ
  avgEstimatesPerJob : Option ℚ
  totalGrossProfit : Option ℚ
  avgGrossProfit : Option ℚ
  avgMarginPct : Option ℚ
  deriving Repr, DecidableEq

/-- A job-technician role association row (source type
`metrics.JobTechnicianData`); role is "assigned", "sold_by" or "primary". -/
structure JobTechnicianData where
  jobID : String
  technicianID : ℤ
  role : String
  deriving Repr, DecidableEq

/-- Job fields needed for the technician calculations (source type
`metrics.JobForTechMetrics`). -/
structure JobForTechMetrics where
  id : String
  status : String
  jobsSubtotal : ℚ
  estimateSalesSubtotal : ℚ
  totalHoursWorked : ℚ
  estimateCount : ℤ
  deriving Repr, DecidableEq

/-- The `jobsByID` map of `CalculateTechnicianMetrics`: built by one pass over
the slice, so on duplicate ids the last row wins. -/
def lookupJob (jobs : List JobForTechMetrics) (jid : String) : Option JobForTechMetrics :=
  jobs.foldl (fun acc j => if j.id == jid then some j else acc) none

/-- The `jobMetricsByID` map of `CalculateTechnicianMetrics` (last writer
wins). -/
def lookupJobMetric (ms : List JobMetric) (jid : String) : Option JobMetric :=
  ms.foldl (fun acc m => if m.jobID == jid then some m else acc) none

/-- The `techJobRolesMap` of `CalculateTechnicianMetrics`: whether the
technician holds the given role on the given job (the map is built from all
rows before the processing loop runs). -/
def hasRole (jts : List JobTechnicianData) (tid : ℤ) (jid : String) (role : String) : Bool :=
  jts.any (fun jt => jt.technicianID == tid && jt.jobID == jid && jt.role == role)

/-- The zero value `&TechnicianMetric{TechnicianID: techID, TotalSales:
decimal.Zero}` placed in `metricsMap` for every technician id. -/
def initMetric (tid : ℤ) : TechnicianMetric :=
  { technicianID := tid
    totalJobs := 0
    soldJobs := 0
    totalSales := 0
    avgSale := none
    conversionRate := none
    totalHoursWorked := 0
    avgHoursPerJob := none
    totalEstimates := 0
    avgEstimatesPerJob := none
    totalGrossProfit := none
    avgGrossProfit := none
    avgMarginPct := none }

/-- One iteration of the processing loop of `CalculateTechnicianMetrics`,
applied to the metric of the row's technician.  `jts` is the full association
list (the role map is built from all rows up front). -/
def processJobTechnician (jts : List JobTechnicianData) (jobs : List JobForTechMetrics)
    (jobMetrics : List JobMetric) (m : TechnicianMetric) (jt : JobTechnicianData) :
    TechnicianMetric :=
  match lookupJob jobs jt.jobID with
  | none => m
  | some job =>
    if job.status ≠ "Completed" then m
    else if jt.role = "sold_by" then
      let m := { m with soldJobs := m.soldJobs + 1 }
      match lookupJobMetric jobMetrics jt.jobID with
      | some jobMetric =>
          { m with totalGrossProfit := some (m.totalGrossProfit.getD 0 + jobMetric.grossProfit) }
      | none => m
    else if jt.role = "primary" then
      let m := { m with totalJobs := m.totalJobs + 1 }
      let m := if job.totalHoursWorked ≠ 0 then
          { m with totalHoursWorked := m.totalHoursWorked + job.totalHoursWorked }
        else m
      let m := { m with totalEstimates := m.totalEstimates + job.estimateCount }
      if 0 < job.estimateSalesSubtotal then
        { m with totalSales := m.totalSales + job.estimateSalesSubtotal }
      else if hasRole jts jt.technicianID jt.jobID "sold_by" ∧ 0 < job.jobsSubtotal then
        { m with totalSales := m.totalSales + job.jobsSubtotal }
      else m
    else m

/-- The accumulated (pre-averages) metric of one technician: the processing
loop restricted to that technician's rows (the loop updates
`metricsMap[jt.TechnicianID]` only, so per-technician accumulation is the
loop's effect on that entry). -/
def accumMetric (jts : List JobTechnicianData) (jobs : List JobForTechMetrics)
    (jobMetrics : List JobMetric) (tid : ℤ) : TechnicianMetric :=
  jts.foldl
    (fun m jt =>
      if jt.technicianID = tid then processJobTechnician jts jobs jobMetrics m jt else m)
    (initMetric tid)

/-- First block of `calculateTechnicianAverages`: conversion rate =
SoldJobs / TotalJobs * 100, set only when TotalJobs > 0. -/
def avgStageConversion (m : TechnicianMetric) : TechnicianMetric :=
  if 0 < m.totalJobs then
    { m with conversionRate := some (divD (m.soldJobs : ℚ) (m.totalJobs : ℚ) * 100) }
  else m

/-- Second block: average sale = TotalSales / SoldJobs, set only when
SoldJobs > 0 and TotalSales > 0. -/
def avgStageSale (m : TechnicianMetric) : TechnicianMetric :=
  if 0 < m.soldJobs ∧ 0 < m.totalSales then
    { m with avgSale := some (divD m.totalSales (m.soldJobs : ℚ)) }
  else m

/-- Third block: average hours per job, set only when TotalJobs > 0 and
TotalHoursWorked is non-zero. -/
def avgStageHours (m : TechnicianMetric) : TechnicianMetric :=
  if 0 < m.totalJobs ∧ m.totalHoursWorked ≠ 0 then
    { m with avgHoursPerJob := some (divD m.totalHoursWorked (m.totalJobs : ℚ)) }
  else m

/-- Fourth block: average estimates per job, set only when TotalJobs > 0. -/
def avgStageEstimates (m : TechnicianMetric) : TechnicianMetric :=
  if 0 < m.totalJobs then
    { m with avgEstimatesPerJob := some (divD (m.totalEstimates : ℚ) (m.totalJobs : ℚ)) }
  else m

/-- Fifth block: average gross profit (when SoldJobs > 0 and the total gross
profit is valid) and average margin (additionally when TotalSales > 0). -/
def avgStageProfit (m : TechnicianMetric) : TechnicianMetric :=
  if 0 < m.soldJobs ∧ m.totalGrossProfit.isSome then
    let tgp := m.totalGrossProfit.getD 0
    let m1 := { m with avgGrossProfit := some (divD tgp (m.soldJobs : ℚ)) }
    if 0 < m1.totalSales then
      { m1 with avgMarginPct := some (divD tgp m1.totalSales * 100) }
    else m1
  else m

/-- Source function `calculateTechnicianAverages`: its five blocks run in
order on the same metric value. -/
def calculateTechnicianAverages (m : TechnicianMetric) : TechnicianMetric :=
  avgStageProfit (avgStageEstimates (avgStageHours (avgStageSale (avgStageConversion m))))

/-- Key deduplication of Go's `metricsMap`: one entry per distinct technician
id, in first-occurrence order (Go map iteration order is arbitrary; the
per-technician metrics do not depend on it). -/
def dedupKeepFirst (l : List ℤ) : List ℤ :=
  l.foldl (fun acc x => if x ∈ acc then acc else acc ++ [x]) []

/-- Source function `CalculateTechnicianMetrics`. -/
def CalculateTechnicianMetrics (technicianIDs : List ℤ)
    (jobTechnicians : List JobTechnicianData) (jobs : List JobForTechMetrics)
    (jobMetrics : List JobMetric) : List TechnicianMetric :=
  (dedupKeepFirst technicianIDs).map
    (fun tid => calculateTechnicianAverages (accumMetric jobTechnicians jobs jobMetrics tid))

/-! Supporting lemmas about the technician-metrics calculator. -/

theorem pjt_technicianID (jts : List JobTechnicianData) (jobs : List JobForTechMetrics)
    (jms : List JobMetric) (m : TechnicianMetric) (jt : JobTechnicianData) :
    (processJobTechnician jts jobs jms m jt).technicianID = m.technicianID := by
  unfold processJobTechnician
  repeat' split
  all_goals rfl

theorem pjt_avgSale (jts : List JobTechnicianData) (jobs : List JobForTechMetrics)
    (jms : List JobMetric) (m : TechnicianMetric) (jt : JobTechnicianData) :
    (processJobTechnician jts jobs jms m jt).avgSale = m.avgSale := by
  unfold processJobTechnician
  repeat' split
  all_goals rfl

theorem pjt_conversionRate (jts : List JobTechnicianData) (jobs : List JobForTechMetrics)
    (jms : List JobMetric) (m : TechnicianMetric) (jt : JobTechnicianData) :
    (processJobTechnician jts jobs jms m jt).conversionRate = m.conversionRate := by
  unfold processJobTechnician
  repeat' split
  all_goals rfl

theorem pjt_avgHoursPerJob (jts : List JobTechnicianData) (jobs : List JobForTechMetrics)
    (jms : List JobMetric) (m : TechnicianMetric) (jt : JobTechnicianData) :
    (processJobTechnician jts jobs jms m jt).avgHoursPerJob = m.avgHoursPerJob := by
  unfold processJobTechnician
  repeat' split
  all_goals rfl

theorem pjt_avgEstimatesPerJob (jts : List JobTechnicianData) (jobs : List JobForTechMetrics)
    (jms : List JobMetric) (m : TechnicianMetric) (jt : JobTechnicianData) :
    (processJobTechnician jts jobs jms m jt).avgEstimatesPerJob = m.avgEstimatesPerJob := by
  unfold processJobTechnician
  repeat' split
  all_goals rfl

theorem pjt_avgGrossProfit (jts : List JobTechnicianData) (jobs : List JobForTechMetrics)
    (jms : List JobMetric) (m : TechnicianMetric) (jt : JobTechnicianData) :
    (processJobTechnician jts jobs jms m jt).avgGrossProfit = m.avgGrossProfit := by
  unfold processJobTechnician
  repeat' split
  all_goals rfl

theorem pjt_avgMarginPct (jts : List JobTechnicianData) (jobs : List JobForTechMetrics)
    (jms : List JobMetric) (m : TechnicianMetric) (jt : JobTechnicianData) :
    (processJobTechnician jts jobs jms m jt).avgMarginPct = m.avgMarginPct := by
  unfold processJobTechnician
  repeat' split
  all_goals rfl

theorem accumFold_preserved (jts0 : List JobTechnicianData) (jobs : List JobForTechMetrics)
    (jms : List JobMetric) (tid : ℤ) (jts : List JobTechnicianData) (m : TechnicianMetric) :
    ((jts.foldl (fun m jt =>
        if jt.technicianID = tid then processJobTechnician jts0 jobs jms m jt else m)
        m).technicianID = m.technicianID ∧
      (jts.foldl (fun m jt =>
        if jt.technicianID = tid then processJobTechnician jts0 jobs jms m jt else m)
        m).avgSale = m.avgSale ∧
      (jts.foldl (fun m jt =>
        if jt.technicianID = tid then processJobTechnician jts0 jobs jms m jt else m)
        m).conversionRate = m.conversionRate ∧
      (jts.foldl (fun m jt =>
        if jt.technicianID = tid then processJobTechnician jts0 jobs jms m jt else m)
        m).avgHoursPerJob = m.avgHoursPerJob ∧
      (jts.foldl (fun m jt =>
        if jt.technicianID = tid then processJobTechnician jts0 jobs jms m jt else m)
        m).avgEstimatesPerJob = m.avgEstimatesPerJob ∧
      (jts.foldl (fun m jt =>
        if jt.technicianID = tid then processJobTechnician jts0 jobs jms m jt else m)
        m).avgGrossProfit = m.avgGrossProfit ∧
      (jts.foldl (fun m jt =>
        if jt.technicianID = tid then processJobTechnician jts0 jobs jms m jt else m)
        m).avgMarginPct = m.avgMarginPct) := by
  induction jts generalizing m with
  | nil => exact ⟨rfl, rfl, rfl, rfl, rfl, rfl, rfl⟩
  | cons jt rest ih =>
    simp only [List.foldl_cons]
    by_cases h : jt.technicianID = tid
    · rw [if_pos h]
      obtain ⟨q1, q2, q3, q4, q5, q6, q7⟩ := ih (processJobTechnician jts0 jobs jms m jt)
      exact ⟨q1.trans (pjt_technicianID jts0 jobs jms m jt),
        q2.trans (pjt_avgSale jts0 jobs jms m jt),
        q3.trans (pjt_conversionRate jts0 jobs jms m jt),
        q4.trans (pjt_avgHoursPerJob jts0 jobs jms m jt),
        q5.trans (pjt_avgEstimatesPerJob jts0 jobs jms m jt),
        q6.trans (pjt_avgGrossProfit jts0 jobs jms m jt),
        q7.trans (pjt_avgMarginPct jts0 jobs jms m jt)⟩
    · rw [if_neg h]
      exact ih m

theorem accumMetric_base (jts : List JobTechnicianData) (jobs : List JobForTechMetrics)
    (jms : List JobMetric) (tid : ℤ) :
    (accumMetric jts jobs jms tid).technicianID = tid ∧
    (accumMetric jts jobs jms tid).avgSale = none ∧
    (accumMetric jts jobs jms tid).conversionRate = none ∧
    (accumMetric jts jobs jms tid).avgHoursPerJob = none ∧
    (accumMetric jts jobs jms tid).avgEstimatesPerJob = none ∧
    (accumMetric jts jobs jms tid).avgGrossProfit = none ∧
    (accumMetric jts jobs jms tid).avgMarginPct = none :=
  accumFold_preserved jts jobs jms tid jts (initMetric tid)

theorem avgStageConversion_eq (m : TechnicianMetric) :
    avgStageConversion m =
      { m with conversionRate :=
          if 0 < m.totalJobs then some (divD (m.soldJobs : ℚ) (m.totalJobs : ℚ) * 100)
          else m.conversionRate } := by
  unfold avgStageConversion
  split_ifs <;> rfl

theorem avgStageSale_eq (m : TechnicianMetric) :
    avgStageSale m =
      { m with avgSale :=
          if 0 < m.soldJobs ∧ 0 < m.totalSales then some (divD m.totalSales (m.soldJobs : ℚ))
          else m.avgSale } := by
  unfold avgStageSale
  split_ifs <;> rfl

theorem avgStageHours_eq (m : TechnicianMetric) :
    avgStageHours m =
      { m with avgHoursPerJob :=
          if 0 < m.totalJobs ∧ m.totalHoursWorked ≠ 0 then
            some (divD m.totalHoursWorked (m.totalJobs : ℚ))
          else m.avgHoursPerJob } := by
  unfold avgStageHours
  split_ifs <;> rfl

theorem avgStageEstimates_eq (m : TechnicianMetric) :
    avgStageEstimates m =
      { m with avgEstimatesPerJob :=
          if 0 < m.totalJobs then some (divD (m.totalEstimates : ℚ) (m.totalJobs : ℚ))
          else m.avgEstimatesPerJob } := by
  unfold avgStageEstimates
  split_ifs <;> rfl

theorem avgStageProfit_eq (m : TechnicianMetric) :
    avgStageProfit m =
      { m with
        avgGrossProfit :=
          if 0 < m.soldJobs ∧ m.totalGrossProfit.isSome then
            some (divD (m.totalGrossProfit.getD 0) (m.soldJobs : ℚ))
          else m.avgGrossProfit,
        avgMarginPct :=
          if 0 < m.soldJobs ∧ m.totalGrossProfit.isSome then
            if 0 < m.totalSales then
              some (divD (m.totalGrossProfit.getD 0) m.totalSales * 100)
            else m.avgMarginPct
          else m.avgMarginPct } := by
  unfold avgStageProfit
  dsimp only
  split_ifs <;> rfl

theorem cta_technicianID (m : TechnicianMetric) :
    (calculateTechnicianAverages m).technicianID = m.technicianID := by
  simp [calculateTechnicianAverages, avgStageConversion_eq, avgStageSale_eq,
    avgStageHours_eq, avgStageEstimates_eq, avgStageProfit_eq]

theorem cta_totalJobs (m : TechnicianMetric) :
    (calculateTechnicianAverages m).totalJobs = m.totalJobs := by
  simp [calculateTechnicianAverages, avgStageConversion_eq, avgStageSale_eq,
    avgStageHours_eq, avgStageEstimates_eq, avgStageProfit_eq]

theorem cta_soldJobs (m : TechnicianMetric) :
    (calculateTechnicianAverages m).soldJobs = m.soldJobs := by
  simp [calculateTechnicianAverages, avgStageConversion_eq, avgStageSale_eq,
    avgStageHours_eq, avgStageEstimates_eq, avgStageProfit_eq]

theorem cta_totalSales (m : TechnicianMetric) :
    (calculateTechnicianAverages m).totalSales = m.totalSales := by
  simp [calculateTechnicianAverages, avgStageConversion_eq, avgStageSale_eq,
    avgStageHours_eq, avgStageEstimates_eq, avgStageProfit_eq]

theorem averages_conversionRate (m : TechnicianMetric) :
    (calculateTechnicianAverages m).conversionRate =
      if 0 < m.totalJobs then some (divD (m.soldJobs : ℚ) (m.totalJobs : ℚ) * 100)
      else m.conversionRate := by
  simp [calculateTechnicianAverages, avgStageConversion_eq, avgStageSale_eq,
    avgStageHours_eq, avgStageEstimates_eq, avgStageProfit_eq]

theorem averages_avgSale (m : TechnicianMetric) :
    (calculateTechnicianAverages m).avgSale =
      if 0 < m.soldJobs ∧ 0 < m.totalSales then some (divD m.totalSales (m.soldJobs : ℚ))
      else m.avgSale := by
  simp [calculateTechnicianAverages, avgStageConversion_eq, avgStageSale_eq,
    avgStageHours_eq, avgStageEstimates_eq, avgStageProfit_eq]

/-- Whether a job-technician row is counted as an opportunity by the
processing loop: a "primary" role on a job that resolves in `jobsByID` and is
completed. -/
def countsAsOpportunity (jobs : List JobForTechMetrics) (jt : JobTechnicianData) : Bool :=
  jt.role == "primary" &&
    match lookupJob jobs jt.jobID with
    | some job => job.status == "Completed"
    | none => false

theorem processJobTechnician_totalJobs (jts0 : List JobTechnicianData)
    (jobs : List JobForTechMetrics) (jms : List JobMetric)
    (m : TechnicianMetric) (jt : JobTechnicianData) :
    (processJobTechnician jts0 jobs jms m jt).totalJobs =
      m.totalJobs + (if countsAsOpportunity jobs jt then 1 else 0) := by
  unfold processJobTechnician countsAsOpportunity
  dsimp only
  repeat' split
  all_goals simp_all

theorem accumFold_totalJobs (jts0 : List JobTechnicianData) (jobs : List JobForTechMetrics)
    (jms : List JobMetric) (tid : ℤ) (jts : List JobTechnicianData) (m : TechnicianMetric) :
    (jts.foldl (fun m jt =>
        if jt.technicianID = tid then processJobTechnician jts0 jobs jms m jt else m)
        m).totalJobs =
      m.totalJobs +
        (jts.filter (fun jt => decide (jt.technicianID = tid) &&
          countsAsOpportunity jobs jt)).length := by
  induction jts generalizing m with
  | nil => simp
  | cons jt rest ih =>
    simp only [List.foldl_cons, List.filter_cons]
    by_cases h : jt.technicianID = tid
    · rw [if_pos h, ih, processJobTechnician_totalJobs]
      by_cases hc : countsAsOpportunity jobs jt
      · simp [h, hc]
        omega
      · simp [h, hc]
    · rw [if_neg h, ih]
      simp [h]

theorem accumMetric_totalJobs (jts : List JobTechnicianData)
    (jobs : List JobForTechMetrics) (jms : List JobMetric) (tid : ℤ) :
    (accumMetric jts jobs jms tid).totalJobs =
      (jts.filter (fun jt => decide (jt.technicianID = tid) &&
        countsAsOpportunity jobs jt)).length := by
  unfold accumMetric
  rw [accumFold_totalJobs]
  simp [initMetric]

theorem mem_dedupKeepFirst (l : List ℤ) (x : ℤ) (hx : x ∈ l) : x ∈ dedupKeepFirst l := by
  unfold dedupKeepFirst
  suffices h : ∀ acc : List ℤ, x ∈ acc ∨ x ∈ l →
      x ∈ l.foldl (fun acc x => if x ∈ acc then acc else acc ++ [x]) acc by
    exact h [] (Or.inr hx)
  clear hx
  induction l with
  | nil =>
    intro acc h
    rcases h with h | h
    · exact h
    · exact absurd h (List.not_mem_nil x)
  | cons y ys ih =>
    intro acc h
    simp only [List.foldl_cons]
    by_cases hy : y ∈ acc
    · rw [if_pos hy]
      apply ih
      rcases h with h | h
      · exact Or.inl h
      · rcases List.mem_cons.mp h with rfl | h
        · exact Or.inl hy
        · exact Or.inr h
    · rw [if_neg hy]
      apply ih
      rcases h with h | h
      · exact Or.inl (List.mem_append_left _ h)
      · rcases List.mem_cons.mp h with rfl | h
        · exact Or.inl (List.mem_append_right _ (List.mem_singleton.mpr rfl))
        · exact Or.inr h

/-- The per-job sales contribution actually implemented for a "primary" row:
estimate sales when positive, else the job subtotal when the technician also
holds "sold_by" on the same job AND the subtotal is positive, else zero. -/
def salesContribution (jts : List JobTechnicianData) (tid : ℤ) (jid : String)
    (job : JobForTechMetrics) : ℚ :=
  if 0 < job.estimateSalesSubtotal then job.estimateSalesSubtotal
  else if hasRole jts tid jid "sold_by" ∧ 0 < job.jobsSubtotal then job.jobsSubtotal
  else 0

/-- The per-job sales contribution as worded by claim C6 (no positivity
condition on the revenue subtotal in the same-visit case). -/
def salesContributionClaim (isSoldBySameJob : Bool)
    (estimateSalesSubtotal jobsSubtotal : ℚ) : ℚ :=
  if 0 < estimateSalesSubtotal then estimateSalesSubtotal
  else if isSoldBySameJob then jobsSubtotal
  else 0

/-! ## Claims about the technician-metrics calculator -/

/-- C6 (amended): processing a "primary" association row for a completed job
adds to the technician's total sales exactly: the job's estimate-sales
subtotal when it is positive; otherwise the job's revenue subtotal when the
technician also holds "sold_by" on the same job AND that subtotal is positive;
otherwise zero.  And in the same-visit example (technician both "primary" and
"sold_by" on a completed job with zero estimate-sales subtotal and revenue
500) the technician gains exactly 500 in total sales and is counted once in
both opportunities and conversions. -/
theorem techMetrics_sales_attribution :
    (∀ (jts : List JobTechnicianData) (jobs : List JobForTechMetrics)
        (jms : List JobMetric) (m : TechnicianMetric)
        (jt : JobTechnicianData) (job : JobForTechMetrics),
        jt.role = "primary" → lookupJob jobs jt.jobID = some job →
        job.status = "Completed" →
        (processJobTechnician jts jobs jms m jt).totalSales =
          m.totalSales + salesContribution jts jt.technicianID jt.jobID job) ∧
    (∃ m ∈ CalculateTechnicianMetrics [1]
        [⟨"J1", 1, "primary"⟩, ⟨"J1", 1, "sold_by"⟩]
        [⟨"J1", "Completed", 500, 0, 0, 0⟩] [],
      m.technicianID = 1 ∧ m.totalSales = 500 ∧ m.totalJobs = 1 ∧ m.soldJobs = 1) := by
  constructor
  · intro jts jobs jms m jt job hrole hlook hstatus
    unfold processJobTechnician
    rw [hlook]
    dsimp only
    rw [if_neg (show ¬ job.status ≠ "Completed" by simp [hstatus])]
    rw [if_neg (show ¬ jt.role = "sold_by" by simp [hrole])]
    rw [if_pos hrole]
    unfold salesContribution
    split_ifs <;> first | rfl | ring
  · have h1 : divD (1 : ℚ) 1 = 1 := by
      rw [divD_eq_div 1 1 (10 ^ 16) (by norm_num [divisionPrecision])]
      norm_num
    have h2 : divD (500 : ℚ) 1 = 500 := by
      rw [divD_eq_div 500 1 (500 * 10 ^ 16) (by norm_num [divisionPrecision])]
      norm_num
    have h3 : divD (0 : ℚ) 1 = 0 := by
      rw [divD_eq_div 0 1 0 (by norm_num [divisionPrecision])]
      norm_num
    have e1 : processJobTechnician [⟨"J1", 1, "primary"⟩, ⟨"J1", 1, "sold_by"⟩]
        [⟨"J1", "Completed", 500, 0, 0, 0⟩] [] (initMetric 1) ⟨"J1", 1, "primary"⟩ =
        ⟨1, 1, 0, 500, none, none, 0, none, 0, none, none, none, none⟩ := by
      norm_num [processJobTechnician, lookupJob, lookupJobMetric, hasRole, initMetric] <;>
        decide
    have e2 : processJobTechnician [⟨"J1", 1, "primary"⟩, ⟨"J1", 1, "sold_by"⟩]
        [⟨"J1", "Completed", 500, 0, 0, 0⟩] []
        ⟨1, 1, 0, 500, none, none, 0, none, 0, none, none, none, none⟩ ⟨"J1", 1, "sold_by"⟩ =
        ⟨1, 1, 1, 500, none, none, 0, none, 0, none, none, none, none⟩ := by
      norm_num [processJobTechnician, lookupJob, lookupJobMetric, hasRole] <;> decide
    have ea : accumMetric [⟨"J1", 1, "primary"⟩, ⟨"J1", 1, "sold_by"⟩]
        [⟨"J1", "Completed", 500, 0, 0, 0⟩] [] 1 =
        ⟨1, 1, 1, 500, none, none, 0, none, 0, none, none, none, none⟩ := by
      rw [accumMetric]
      norm_num [List.foldl_cons, List.foldl_nil, e1, e2]
    have eavg : calculateTechnicianAverages
        ⟨1, 1, 1, 500, none, none, 0, none, 0, none, none, none, none⟩ =
        ⟨1, 1, 1, 500, some 500, some 100, 0, none, 0, some 0, none, none, none⟩ := by
      norm_num [calculateTechnicianAverages, avgStageConversion, avgStageSale, avgStageHours,
        avgStageEstimates, avgStageProfit, h1, h2, h3]
    have hlist : CalculateTechnicianMetrics [1]
        [⟨"J1", 1, "primary"⟩, ⟨"J1", 1, "sold_by"⟩]
        [⟨"J1", "Completed", 500, 0, 0, 0⟩] [] =
        [⟨1, 1, 1, 500, some 500, some 100, 0, none, 0, some 0, none, none, none⟩] := by
      rw [CalculateTechnicianMetrics]
      norm_num [dedupKeepFirst, List.foldl_cons, List.foldl_nil, ea, eavg]
    refine ⟨⟨1, 1, 1, 500, some 500, some 100, 0, none, 0, some 0, none, none, none⟩,
      by simp [hlist], rfl, rfl, rfl, rfl⟩

/-- C6 witness: the step equation applied at the same-visit input (technician
1 primary on completed job J1 with zero estimate sales and revenue 500, also
sold_by on J1) credits exactly 500. -/
theorem techMetrics_sales_attribution_witness :
    (processJobTechnician [⟨"J1", 1, "primary"⟩, ⟨"J1", 1, "sold_by"⟩]
        [⟨"J1", "Completed", 500, 0, 0, 0⟩] [] (initMetric 1) ⟨"J1", 1, "primary"⟩).totalSales =
      (initMetric 1).totalSales +
        salesContribution [⟨"J1", 1, "primary"⟩, ⟨"J1", 1, "sold_by"⟩] 1 "J1"
          ⟨"J1", "Completed", 500, 0, 0, 0⟩ :=
  techMetrics_sales_attribution.1
    [⟨"J1", 1, "primary"⟩, ⟨"J1", 1, "sold_by"⟩]
    [⟨"J1", "Completed", 500, 0, 0, 0⟩] [] (initMetric 1) ⟨"J1", 1, "primary"⟩
    ⟨"J1", "Completed", 500, 0, 0, 0⟩ rfl (by norm_num [lookupJob]) rfl

/-- C6 counterexample: with a negative revenue subtotal (−5), zero estimate
sales and both roles held, the code credits 0 to total sales while the claim's
rule ("otherwise the job's full revenue subtotal if the same technician also
holds sold_by") yields −5. -/
theorem techMetrics_sales_claim_counterexample :
    (∃ m ∈ CalculateTechnicianMetrics [1]
        [⟨"J1", 1, "primary"⟩, ⟨"J1", 1, "sold_by"⟩]
        [⟨"J1", "Completed", -5, 0, 0, 0⟩] [],
      m.technicianID = 1 ∧ m.totalSales = 0 ∧
        m.totalSales ≠ salesContributionClaim true 0 (-5)) ∧
    salesContributionClaim true 0 (-5) = -5 := by
  have h1 : divD (1 : ℚ) 1 = 1 := by
    rw [divD_eq_div 1 1 (10 ^ 16) (by norm_num [divisionPrecision])]
    norm_num
  have h3 : divD (0 : ℚ) 1 = 0 := by
    rw [divD_eq_div 0 1 0 (by norm_num [divisionPrecision])]
    norm_num
  have hclaim : salesContributionClaim true 0 (-5) = -5 := by
    norm_num [salesContributionClaim]
  have e1 : processJobTechnician [⟨"J1", 1, "primary"⟩, ⟨"J1", 1, "sold_by"⟩]
      [⟨"J1", "Completed", -5, 0, 0, 0⟩] [] (initMetric 1) ⟨"J1", 1, "primary"⟩ =
      ⟨1, 1, 0, 0, none, none, 0, none, 0, none, none, none, none⟩ := by
    norm_num [processJobTechnician, lookupJob, lookupJobMetric, hasRole, initMetric] <;> decide
  have e2 : processJobTechnician [⟨"J1", 1, "primary"⟩, ⟨"J1", 1, "sold_by"⟩]
      [⟨"J1", "Completed", -5, 0, 0, 0⟩] []
      ⟨1, 1, 0, 0, none, none, 0, none, 0, none, none, none, none⟩ ⟨"J1", 1, "sold_by"⟩ =
      ⟨1, 1, 1, 0, none, none, 0, none, 0, none, none, none, none⟩ := by
    norm_num [processJobTechnician, lookupJob, lookupJobMetric, hasRole] <;> decide
  have ea : accumMetric [⟨"J1", 1, "primary"⟩, ⟨"J1", 1, "sold_by"⟩]
      [⟨"J1", "Completed", -5, 0, 0, 0⟩] [] 1 =
      ⟨1, 1, 1, 0, none, none, 0, none, 0, none, none, none, none⟩ := by
    rw [accumMetric]
    norm_num [List.foldl_cons, List.foldl_nil, e1, e2]
  have eavg : calculateTechnicianAverages
      ⟨1, 1, 1, 0, none, none, 0, none, 0, none, none, none, none⟩ =
      ⟨1, 1, 1, 0, none, some 100, 0, none, 0, some 0, none, none, none⟩ := by
    norm_num [calculateTechnicianAverages, avgStageConversion, avgStageSale, avgStageHours,
      avgStageEstimates, avgStageProfit, h1, h3]
  have hlist : CalculateTechnicianMetrics [1]
      [⟨"J1", 1, "primary"⟩, ⟨"J1", 1, "sold_by"⟩]
      [⟨"J1", "Completed", -5, 0, 0, 0⟩] [] =
      [⟨1, 1, 1, 0, none, some 100, 0, none, 0, some 0, none, none, none⟩] := by
    rw [CalculateTechnicianMetrics]
    norm_num [dedupKeepFirst, List.foldl_cons, List.foldl_nil, ea, eavg]
  refine ⟨⟨⟨1, 1, 1, 0, none, some 100, 0, none, 0, some 0, none, none, none⟩,
    by simp [hlist], rfl, rfl, ?_⟩, hclaim⟩
  rw [hclaim]
  norm_num

/-- C7: a technician metric's conversion rate is present exactly when the
opportunity count (completed jobs held as "primary") is positive, in which
case it equals conversions divided by opportunities times 100 (decimal
division); and a technician with no "primary" association at all (even with
"sold_by" rows) gets an absent conversion rate. -/
theorem techMetrics_conversion_rate :
    (∀ (techIDs : List ℤ) (jts : List JobTechnicianData)
        (jobs : List JobForTechMetrics) (jms : List JobMetric) (m : TechnicianMetric),
        m ∈ CalculateTechnicianMetrics techIDs jts jobs jms →
        (m.conversionRate.isSome ↔ 0 < m.totalJobs) ∧
        (0 < m.totalJobs →
          m.conversionRate = some (divD (m.soldJobs : ℚ) (m.totalJobs : ℚ) * 100))) ∧
    (∀ (techIDs : List ℤ) (jts : List JobTechnicianData)
        (jobs : List JobForTechMetrics) (jms : List JobMetric) (tid : ℤ),
        tid ∈ techIDs →
        (∀ jt ∈ jts, jt.technicianID = tid → jt.role ≠ "primary") →
        ∃ m ∈ CalculateTechnicianMetrics techIDs jts jobs jms,
          m.technicianID = tid ∧ m.totalJobs = 0 ∧ m.conversionRate = none) := by
  constructor
  · intro techIDs jts jobs jms m hm
    obtain ⟨tid, _, hmEq⟩ := List.mem_map.mp hm
    subst hmEq
    have hbase := accumMetric_base jts jobs jms tid
    rw [averages_conversionRate, cta_totalJobs, cta_soldJobs, hbase.2.2.1]
    by_cases hj : 0 < (accumMetric jts jobs jms tid).totalJobs
    · simp [hj]
    · simp [hj]
  · intro techIDs jts jobs jms tid htid hno
    have hbase := accumMetric_base jts jobs jms tid
    have hfilter : jts.filter (fun jt => decide (jt.technicianID = tid) &&
        countsAsOpportunity jobs jt) = [] := by
      apply List.filter_eq_nil_iff.mpr
      intro jt hjt
      by_cases h : jt.technicianID = tid
      · have hrole := hno jt hjt h
        simp [countsAsOpportunity, hrole]
      · simp [h]
    have hz : (accumMetric jts jobs jms tid).totalJobs = 0 := by
      rw [accumMetric_totalJobs, hfilter]
      rfl
    refine ⟨calculateTechnicianAverages (accumMetric jts jobs jms tid),
      List.mem_map_of_mem _ (mem_dedupKeepFirst techIDs tid htid), ?_, ?_, ?_⟩
    · rw [cta_technicianID]
      exact hbase.1
    · rw [cta_totalJobs]
      exact hz
    · rw [averages_conversionRate, hbase.2.2.1, if_neg]
      simp [hz]

/-- C7 witness: technician 7 holds only a "sold_by" association on a completed
job, so the conversion rate is absent (and opportunities are zero). -/
theorem techMetrics_conversion_rate_witness :
    ∃ m ∈ CalculateTechnicianMetrics [7] [⟨"J1", 7, "sold_by"⟩]
        [⟨"J1", "Completed", 100, 0, 0, 0⟩] [],
      m.technicianID = 7 ∧ m.totalJobs = 0 ∧ m.conversionRate = none :=
  techMetrics_conversion_rate.2 [7] [⟨"J1", 7, "sold_by"⟩]
    [⟨"J1", "Completed", 100, 0, 0, 0⟩] [] 7 (by simp)
    (by
      intro jt hjt h
      simp only [List.mem_singleton] at hjt
      subst hjt
      simp)

/-- C10: a technician metric's average sale is present exactly when both the
sold-job count and the total sales are strictly positive; a technician with
sold jobs but zero attributed sales gets an absent average sale, never 0. -/
theorem techMetrics_avg_sale_presence (techIDs : List ℤ)
    (jts : List JobTechnicianData) (jobs : List JobForTechMetrics)
    (jms : List JobMetric) (m : TechnicianMetric)
    (hm : m ∈ CalculateTechnicianMetrics techIDs jts jobs jms) :
    m.avgSale.isSome ↔ 0 < m.soldJobs ∧ 0 < m.totalSales := by
  obtain ⟨tid, _, hmEq⟩ := List.mem_map.mp hm
  subst hmEq
  have hbase := accumMetric_base jts jobs jms tid
  rw [averages_avgSale, cta_soldJobs, cta_totalSales, hbase.2.1]
  by_cases hj : 0 < (accumMetric jts jobs jms tid).soldJobs ∧
      0 < (accumMetric jts jobs jms tid).totalSales
  · simp [hj]
  · simp [hj]

/-- C10 witness: technician 3 sold one completed job but has zero attributed
total sales (not primary, zero estimate sales), so the average sale is absent,
not zero. -/
theorem techMetrics_avg_sale_presence_witness :
    (⟨3, 0, 1, 0, none, none, 0, none, 0, none, none, none, none⟩ : TechnicianMetric) ∈
      CalculateTechnicianMetrics [3] [⟨"J1", 3, "sold_by"⟩]
        [⟨"J1", "Completed", 200, 0, 0, 0⟩] [] ∧
    ((⟨3, 0, 1, 0, none, none, 0, none, 0, none, none, none, none⟩ :
        TechnicianMetric).avgSale.isSome ↔
      0 < (⟨3, 0, 1, 0, none, none, 0, none, 0, none, none, none, none⟩ :
        TechnicianMetric).soldJobs ∧
      0 < (⟨3, 0, 1, 0, none, none, 0, none, 0, none, none, none, none⟩ :
        TechnicianMetric).totalSales) := by
  have e1 : processJobTechnician [⟨"J1", 3, "sold_by"⟩]
      [⟨"J1", "Completed", 200, 0, 0, 0⟩] [] (initMetric 3) ⟨"J1", 3, "sold_by"⟩ =
      ⟨3, 0, 1, 0, none, none, 0, none, 0, none, none, none, none⟩ := by
    norm_num [processJobTechnician, lookupJob, lookupJobMetric, hasRole, initMetric] <;> decide
  have ea : accumMetric [⟨"J1", 3, "sold_by"⟩]
      [⟨"J1", "Completed", 200, 0, 0, 0⟩] [] 3 =
      ⟨3, 0, 1, 0, none, none, 0, none, 0, none, none, none, none⟩ := by
    rw [accumMetric]
    norm_num [List.foldl_cons, List.foldl_nil, e1]
  have eavg : calculateTechnicianAverages
      ⟨3, 0, 1, 0, none, none, 0, none, 0, none, none, none, none⟩ =
      ⟨3, 0, 1, 0, none, none, 0, none, 0, none, none, none, none⟩ := by
    norm_num [calculateTechnicianAverages, avgStageConversion, avgStageSale, avgStageHours,
      avgStageEstimates, avgStageProfit]
  have hlist : CalculateTechnicianMetrics [3] [⟨"J1", 3, "sold_by"⟩]
      [⟨"J1", "Completed", 200, 0, 0, 0⟩] [] =
      [⟨3, 0, 1, 0, none, none, 0, none, 0, none, none, none, none⟩] := by
    rw [CalculateTechnicianMetrics]
    norm_num [dedupKeepFirst, List.foldl_cons, List.foldl_nil, ea, eavg]
  have hmem : (⟨3, 0, 1, 0, none, none, 0, none, 0, none, none, none, none⟩ :
      TechnicianMetric) ∈ CalculateTechnicianMetrics [3] [⟨"J1", 3, "sold_by"⟩]
        [⟨"J1", "Completed", 200, 0, 0, 0⟩] [] := by
    simp [hlist]
  exact ⟨hmem, techMetrics_avg_sale_presence _ _ _ _ _ hmem⟩

/-- C8 witness: a completed job with negative revenue −10 and one invoice
produces a metric whose margin is absent, matching presence iff revenue > 0. -/
theorem jobMetrics_margin_presence_witness :
    (⟨"J2", -10, 5, -15, none, 1, false⟩ : JobMetric) ∈
      CalculateJobMetrics [⟨"J2", "Completed", -10⟩] [⟨"I1", "J2", 5, false⟩] ∧
    ((⟨"J2", -10, 5, -15, none, 1, false⟩ : JobMetric).revenue ≠ 0 ∧
      ((⟨"J2", -10, 5, -15, none, 1, false⟩ : JobMetric).grossMarginPct.isSome ↔
        0 < (⟨"J2", -10, 5, -15, none, 1, false⟩ : JobMetric).revenue)) := by
  have hmem : (⟨"J2", -10, 5, -15, none, 1, false⟩ : JobMetric) ∈
      CalculateJobMetrics [⟨"J2", "Completed", -10⟩] [⟨"I1", "J2", 5, false⟩] := by
    norm_num [CalculateJobMetrics, calculateSingleJobMetric, invoicesForJob,
      nonAdjustmentCostSum, List.filterMap_cons, List.filter, List.find?,
      -List.length_eq_zero]
  exact ⟨hmem, jobMetrics_margin_presence _ _ _ hmem⟩

/-! ## Batch importer

Shallow embedding of `internal/importer`: the parsed row types, the
relational state (`DB`), the SQL statements used by the importer (modelled on
the queries' semantics: list scans and order-preserving inserts/upserts), and
`ImportFiles` itself.  Database statements can fail for environmental reasons
(constraint violations, connectivity); such failures are injected through a
`StepFailures` record, one slot per importer step, consulted where the
corresponding statements run in the source.  The transaction is modelled by
running the steps on a working copy of the `DB`; `tx.Commit` returns the
working copy and the deferred `tx.Rollback()` discards it (`rollbackTo`).
`ImportFiles` also emits an event trace recording file parsing, transaction
begin/commit/rollback and the non-fatal technician-metrics warning log. -/

/-- A parsed row of the jobs report (source type `parser.JobRow`; only the
fields read by the importer steps under verification are carried).  Dates are
modelled as integers. -/
structure JobRow where
  jobID : String
  customerID : ℤ
  customerName : Option String
  jobType : String
  status : String
  jobCompletionDate : Option ℤ
  assignedTechnicians : Option String
  soldBy : Option String
  primaryTechnician : Option String
  jobsSubtotal : Option ℚ
  estimateSalesSubtotal : Option ℚ
  totalHoursWorked : Option ℚ
  estimateCount : Option ℤ
  deriving Repr, DecidableEq

/-- A parsed row of the invoices report (source type `parser.InvoiceRow`;
only the fields read by the importer steps under verification). -/
structure InvoiceRow where
  invoiceID : String
  jobID : String
  invoiceDate : ℤ
  costsTotal : Option ℚ
  isAdjustment : Bool
  deriving Repr, DecidableEq

/-- Helper `decimalOrZero`: a nil decimal becomes zero. -/
def decimalOrZero : Option ℚ → ℚ
  | none => 0
  | some d => d

/-- Helper `stringOrEmpty`. -/
def stringOrEmpty : Option String → String
  | none => ""
  | some s => s

/-- A row of `import_batches`. -/
structure BatchRow where
  id : ℤ
  jobReportFilename : String
  invoiceReportFilename : String
  jobReportHash : String
  invoiceReportHash : String
  rowCountJobs : ℤ
  rowCountInvoices : ℤ
  status : String
  errorMessage : Option String
  deriving Repr, DecidableEq

/-- A row of `customers` (address fields are carried by no claim and are
omitted; the date fields have the LEAST/GREATEST upsert semantics). -/
structure CustomerRow where
  id : ℤ
  customerName : String
  firstJobDate : Option ℤ
  lastJobDate : Option ℤ
  deriving Repr, DecidableEq

/-- A row of `jobs` (the fields the verified steps read back). -/
structure DbJobRow where
  id : String
  customerID : ℤ
  importBatchID : ℤ
  jobType : String
  status : String
  jobsSubtotal : ℚ
  totalHoursWorked : ℚ
  deriving Repr, DecidableEq

/-- A row of `invoices` (the fields the verified steps read back). -/
structure DbInvoiceRow where
  id : String
  jobID : String
  importBatchID : ℤ
  invoiceDate : ℤ
  costsTotal : ℚ
  isAdjustment : Bool
  deriving Repr, DecidableEq

/-- A row of `technicians`. -/
structure TechnicianRow where
  id : ℤ
  name : String
  firstSeenDate : Option ℤ
  lastSeenDate : Option ℤ
  deriving Repr, DecidableEq

/-- A row of `job_technicians`. -/
structure JobTechRow where
  jobID : String
  technicianID : ℤ
  role : String
  deriving Repr, DecidableEq

/-- The relational state: one list per table, in insertion order, plus the
next values of the two BIGSERIAL keys. -/
structure DB where
  batches : List BatchRow
  customers : List CustomerRow
  jobs : List DbJobRow
  invoices : List DbInvoiceRow
  technicians : List TechnicianRow
  jobTechnicians : List JobTechRow
  jobMetrics : List JobMetric
  technicianMetrics : List TechnicianMetric
  nextBatchID : ℤ
  nextTechnicianID : ℤ
  deriving Repr, DecidableEq

/-- Query `GetImportBatchByHashes`: first batch row matching both hashes. -/
def getImportBatchByHashes (db : DB) (jobsHash invoicesHash : String) : Option BatchRow :=
  db.batches.find? (fun b => b.jobReportHash == jobsHash && b.invoiceReportHash == invoicesHash)

/-- Query `CreateImportBatch`: insert with status "pending" and a fresh
serial id. -/
def createImportBatch (db : DB) (jobsFilename invoicesFilename jobsHash invoicesHash : String)
    (rowCountJobs rowCountInvoices : ℤ) : BatchRow × DB :=
  let b : BatchRow := ⟨db.nextBatchID, jobsFilename, invoicesFilename, jobsHash, invoicesHash,
    rowCountJobs, rowCountInvoices, "pending", none⟩
  (b, { db with batches := db.batches ++ [b], nextBatchID := db.nextBatchID + 1 })

/-- Query `UpdateImportBatchStatus`. -/
def updateImportBatchStatus (db : DB) (id : ℤ) (status : String)
    (errorMessage : Option String) : DB :=
  { db with batches := db.batches.map (fun b =>
      if b.id == id then { b with status := status, errorMessage := errorMessage } else b) }

/-- Postgres LEAST over nullable dates (NULLs are ignored). -/
def leastOpt (a b : Option ℤ) : Option ℤ :=
  match a, b with
  | none, b => b
  | a, none => a
  | some x, some y => some (min x y)

/-- Postgres GREATEST over nullable dates (NULLs are ignored). -/
def greatestOpt (a b : Option ℤ) : Option ℤ :=
  match a, b with
  | none, b => b
  | a, none => a
  | some x, some y => some (max x y)

/-- Query `UpsertCustomer`: insert, or on conflict overwrite the denormalized
fields and widen the first/last job dates (LEAST/GREATEST). -/
def upsertCustomer (db : DB) (c : CustomerRow) : DB :=
  if db.customers.any (fun x => x.id == c.id) then
    { db with customers := db.customers.map (fun x =>
        if x.id == c.id then
          { x with customerName := c.customerName,
                   firstJobDate := leastOpt x.firstJobDate c.firstJobDate,
                   lastJobDate := greatestOpt x.lastJobDate c.lastJobDate }
        else x) }
  else { db with customers := db.customers ++ [c] }

/-- Key set of the `customerMap` built by `importCustomers`, in
first-appearance order (Go map iteration order is arbitrary; the upserts of
distinct customers are independent). -/
def dedupKeepFirstZ (l : List ℤ) : List ℤ :=
  l.foldl (fun acc x => if x ∈ acc then acc else acc ++ [x]) []

/-- The representative job row kept in `customerMap` for one customer: the
first row, replaced by any later row whose completion date is strictly
later (when both dates are present). -/
def customerRep (jobs : List JobRow) (cid : ℤ) : Option JobRow :=
  jobs.foldl (fun acc j =>
    if j.customerID == cid then
      match acc with
      | none => some j
      | some ex =>
        match j.jobCompletionDate, ex.jobCompletionDate with
        | some dj, some de => if de < dj then some j else acc
        | _, _ => acc
    else acc) none

/-- The first/last completion date scan of `importCustomers` for one
customer. -/
def customerDates (jobs : List JobRow) (cid : ℤ) : Option ℤ × Option ℤ :=
  jobs.foldl (fun (acc : Option ℤ × Option ℤ) j =>
    if j.customerID == cid then
      match j.jobCompletionDate with
      | none => acc
      | some d =>
        let first := match acc.1 with
          | none => some d
          | some f => if d < f then some d else some f
        let last := match acc.2 with
          | none => some d
          | some l => if l < d then some d else some l
        (first, last)
    else acc) (none, none)

/-- Source method `importCustomers`: upsert one customer row per distinct
customer id appearing in the job rows; returns the upsert count. -/
def importCustomers (db : DB) (jobs : List JobRow) : ℕ × DB :=
  (dedupKeepFirstZ (jobs.map (·.customerID))).foldl
    (fun (acc : ℕ × DB) cid =>
      match customerRep jobs cid with
      | none => acc
      | some job =>
        let dates := customerDates jobs cid
        (acc.1 + 1, upsertCustomer acc.2 ⟨cid, stringOrEmpty job.customerName,
          dates.1, dates.2⟩))
    (0, db)

/-- Conversion of a parsed job row to its `jobs` table row. -/
def jobRowToDb (j : JobRow) (batchID : ℤ) : DbJobRow :=
  ⟨j.jobID, j.customerID, batchID, j.jobType, j.status,
    decimalOrZero j.jobsSubtotal, decimalOrZero j.totalHoursWorked⟩

/-- Source method `importJobs`: insert every job row and collect the set of
valid job ids (as the list of inserted ids). -/
def importJobs (db : DB) (jobs : List JobRow) (batchID : ℤ) : List String × DB :=
  jobs.foldl
    (fun (acc : List String × DB) j =>
      (acc.1 ++ [j.jobID], { acc.2 with jobs := acc.2.jobs ++ [jobRowToDb j batchID] }))
    ([], db)

/-- Source function `splitTechnicianNames`: split on commas, trim, drop
empties. -/
def splitTechnicianNames (names : String) : List String :=
  ((names.splitOn ",").map (·.trim)).filter (· ≠ "")

/-- Query `UpsertTechnician` plus the per-run name cache of
`upsertTechnician`: trims the name (empty is an error), then serves from the
cache, else upserts by unique name with LEAST/GREATEST seen dates. -/
def upsertTechnician (db : DB) (cache : List (String × ℤ)) (name : String)
    (jobDate : Option ℤ) : Except String (ℤ × DB × List (String × ℤ)) :=
  let name := name.trim
  if name = "" then .error "technician name cannot be empty"
  else
    match cache.find? (fun p => p.1 == name) with
    | some p => .ok (p.2, db, cache)
    | none =>
      match db.technicians.find? (fun t => t.name == name) with
      | some t =>
        .ok (t.id,
          { db with technicians := db.technicians.map (fun x =>
              if x.name == name then
                { x with firstSeenDate := leastOpt x.firstSeenDate jobDate,
                         lastSeenDate := greatestOpt x.lastSeenDate jobDate }
              else x) },
          cache ++ [(name, t.id)])
      | none =>
        let t : TechnicianRow := ⟨db.nextTechnicianID, name, jobDate, jobDate⟩
        .ok (db.nextTechnicianID,
          { db with technicians := db.technicians ++ [t], nextTechnicianID := db.nextTechnicianID + 1 },
          cache ++ [(name, db.nextTechnicianID)])

/-- Query `CreateJobTechnician`: insert with ON CONFLICT DO NOTHING on the
(job, technician, role) triple. -/
def createJobTechnician (db : DB) (jobID : String) (tid : ℤ) (role : String) : DB :=
  if db.jobTechnicians.any (fun r =>
      r.jobID == jobID && r.technicianID == tid && r.role == role) then db
  else { db with jobTechnicians := db.jobTechnicians ++ [⟨jobID, tid, role⟩] }

/-- Processing of one single-name role field (sold_by / primary) of one job
row by `ImportTechnicians`: skipped when nil or empty. -/
def processRoleField (db : DB) (cache : List (String × ℤ)) (jobID : String)
    (field : Option String) (role : String) (completionDate : Option ℤ) :
    Except String (DB × List (String × ℤ)) :=
  match field with
  | none => .ok (db, cache)
  | some s =>
    if s = "" then .ok (db, cache)
    else
      match upsertTechnician db cache s completionDate with
      | .error e => .error e
      | .ok out => .ok (createJobTechnician out.2.1 jobID out.1 role, out.2.2)

/-- Processing of the comma-separated assigned-technician names of one job
row by `ImportTechnicians`. -/
def processAssigned (jobID : String) (completionDate : Option ℤ) :
    List String → DB → List (String × ℤ) → Except String (DB × List (String × ℤ))
  | [], db, cache => .ok (db, cache)
  | n :: rest, db, cache =>
    match upsertTechnician db cache n completionDate with
    | .error e => .error e
    | .ok out => processAssigned jobID completionDate rest
        (createJobTechnician out.2.1 jobID out.1 "assigned") out.2.2

/-- The per-job loop of `ImportTechnicians`: sold_by, then primary, then the
assigned list. -/
def importTechniciansGo : List JobRow → DB → List (String × ℤ) →
    Except String (DB × List (String × ℤ))
  | [], db, cache => .ok (db, cache)
  | job :: rest, db, cache =>
    match processRoleField db cache job.jobID job.soldBy "sold_by" job.jobCompletionDate with
    | .error e => .error e
    | .ok out1 =>
      match processRoleField out1.1 out1.2 job.jobID job.primaryTechnician "primary"
          job.jobCompletionDate with
      | .error e => .error e
      | .ok out2 =>
        let assignedNames :=
          match job.assignedTechnicians with
          | none => []
          | some s => if s = "" then [] else splitTechnicianNames s
        match processAssigned job.jobID job.jobCompletionDate assignedNames out2.1 out2.2 with
        | .error e => .error e
        | .ok out3 => importTechniciansGo rest out3.1 out3.2

/-- Source method `ImportTechnicians`: returns the number of distinct
technician names seen (the cache size). -/
def ImportTechnicians (db : DB) (jobs : List JobRow) (_batchID : ℤ) :
    Except String (ℕ × DB) :=
  match importTechniciansGo jobs db [] with
  | .error e => .error e
  | .ok out => .ok (out.2.length, out.1)

/-- Conversion of a parsed invoice row to its `invoices` table row. -/
def invoiceRowToDb (inv : InvoiceRow) (batchID : ℤ) : DbInvoiceRow :=
  ⟨inv.invoiceID, inv.jobID, batchID, inv.invoiceDate,
    decimalOrZero inv.costsTotal, inv.isAdjustment⟩

/-- Insertion into the `missingJobIDs` set of `importInvoices` (a Go map of
distinct keys, in first-appearance order). -/
def insertIfAbsent (l : List String) (s : String) : List String :=
  if s ∈ l then l else l ++ [s]

/-- The loop of `importInvoices`: an invoice whose job id is not valid is
skipped (counted, its job id recorded); otherwise the row is inserted. -/
def importInvoicesGo (batchID : ℤ) (validJobIDs : List String) :
    List InvoiceRow → ℕ → ℕ → List String → DB → ℕ × ℕ × List String × DB
  | [], imported, skipped, missing, db => (imported, skipped, missing, db)
  | inv :: rest, imported, skipped, missing, db =>
    if !validJobIDs.contains inv.jobID then
      importInvoicesGo batchID validJobIDs rest imported (skipped + 1)
        (insertIfAbsent missing inv.jobID) db
    else
      importInvoicesGo batchID validJobIDs rest (imported + 1) skipped missing
        { db with invoices := db.invoices ++ [invoiceRowToDb inv batchID] }

/-- Source method `importInvoices`: returns (imported count, skipped count,
distinct missing job ids, updated state). -/
def importInvoices (db : DB) (invoices : List InvoiceRow) (batchID : ℤ)
    (validJobIDs : List String) : ℕ × ℕ × List String × DB :=
  importInvoicesGo batchID validJobIDs invoices 0 0 [] db

/-- Source type `ValidationResult`. -/
structure ValidationResult where
  jobsWithoutInvoices : List String
  warnings : List String
  deriving Repr, DecidableEq

/-- Query `GetJobsWithoutInvoices`: jobs of the batch with no invoice row
(of any batch) referencing them. -/
def getJobsWithoutInvoices (db : DB) (batchID : ℤ) : List DbJobRow :=
  db.jobs.filter (fun j => j.importBatchID == batchID &&
    !(db.invoices.any (fun i => i.jobID == j.id)))

/-- Source function `ValidateImport`. -/
def ValidateImport (db : DB) (batchID : ℤ) : ValidationResult :=
  let jobsWithout := getJobsWithoutInvoices db batchID
  let n := jobsWithout.length
  if 0 < n then
    { jobsWithoutInvoices := jobsWithout.map (·.id)
      warnings := [s!"Found {n} jobs without invoices"] }
  else { jobsWithoutInvoices := [], warnings := [] }

/-- The ON CONFLICT (job_id) DO UPDATE upsert of `SaveJobMetrics`. -/
def upsertJobMetricRow (l : List JobMetric) (m : JobMetric) : List JobMetric :=
  if l.any (fun x => x.jobID == m.jobID) then
    l.map (fun x => if x.jobID == m.jobID then m else x)
  else l ++ [m]

/-- Source function `SaveJobMetrics`. -/
def SaveJobMetrics (db : DB) (ms : List JobMetric) : DB :=
  { db with jobMetrics := ms.foldl upsertJobMetricRow db.jobMetrics }

/-- The ON CONFLICT (technician_id) DO UPDATE upsert of
`SaveTechnicianMetrics`. -/
def upsertTechMetricRow (l : List TechnicianMetric) (m : TechnicianMetric) :
    List TechnicianMetric :=
  if l.any (fun x => x.technicianID == m.technicianID) then
    l.map (fun x => if x.technicianID == m.technicianID then m else x)
  else l ++ [m]

/-- Source function `SaveTechnicianMetrics`. -/
def SaveTechnicianMetrics (db : DB) (ms : List TechnicianMetric) : DB :=
  { db with technicianMetrics := ms.foldl upsertTechMetricRow db.technicianMetrics }

/-- Source method `calculateAndSaveJobMetrics`: convert the parsed rows with
a valid job id, run `CalculateJobMetrics`, upsert the results. -/
def calculateAndSaveJobMetrics (db : DB) (jobs : List JobRow)
    (invoices : List InvoiceRow) (validJobIDs : List String) : ℕ × DB :=
  let jobData := (jobs.filter (fun j => validJobIDs.contains j.jobID)).map
    (fun j => (⟨j.jobID, j.status, decimalOrZero j.jobsSubtotal⟩ : JobData))
  let invoiceData := (invoices.filter (fun i => validJobIDs.contains i.jobID)).map
    (fun i => (⟨i.invoiceID, i.jobID, decimalOrZero i.costsTotal, i.isAdjustment⟩ : InvoiceData))
  let ms := CalculateJobMetrics jobData invoiceData
  (ms.length, SaveJobMetrics db ms)

/-- Source method `calculateAndSaveTechnicianMetrics`: all technician ids,
the batch's job-technician rows, the parsed jobs and all stored job metrics
feed `CalculateTechnicianMetrics`; results are upserted. -/
def calculateAndSaveTechnicianMetrics (db : DB) (jobs : List JobRow) (batchID : ℤ) :
    ℕ × DB :=
  let techIDs := db.technicians.map (·.id)
  if techIDs.length = 0 then (0, db)
  else
    let jobTechs := (db.jobTechnicians.filter (fun jt =>
        db.jobs.any (fun j => j.id == jt.jobID && j.importBatchID == batchID))).map
      (fun jt => (⟨jt.jobID, jt.technicianID, jt.role⟩ : JobTechnicianData))
    let jobsForMetrics := jobs.map (fun j =>
      (⟨j.jobID, j.status, decimalOrZero j.jobsSubtotal,
        decimalOrZero j.estimateSalesSubtotal, decimalOrZero j.totalHoursWorked,
        (match j.estimateCount with | some c => c | none => 0)⟩ : JobForTechMetrics))
    let ms := CalculateTechnicianMetrics techIDs jobTechs jobsForMetrics db.jobMetrics
    (ms.length, SaveTechnicianMetrics db ms)

/-- An observable action of one `ImportFiles` run. -/
inductive ImportEvent where
  | parseFiles
  | txBegin
  | txCommit
  | txRollback
  | logTechMetricsWarning (msg : String)
  deriving Repr, DecidableEq

/-- Environmental failures injected into the importer's database steps, one
slot per step, `none` meaning the step's statements succeed. -/
structure StepFailures where
  beginTx : Option String
  createBatch : Option String
  customers : Option String
  jobs : Option String
  technicians : Option String
  invoices : Option String
  validate : Option String
  jobMetrics : Option String
  techMetrics : Option String
  markSuccess : Option String
  commit : Option String
  deriving Repr, DecidableEq

/-- Source type `ImportResult` (`Duration` is real time and not modelled). -/
structure ImportResult where
  batchID : ℤ
  jobsImported : ℕ
  invoicesImported : ℕ
  invoicesSkipped : ℕ
  customersUpserted : ℕ
  techniciansImported : ℕ
  jobMetricsCalculated : ℕ
  techMetricsCalculated : ℕ
  validationResult : Option ValidationResult
  alreadyImported : Bool
  deriving Repr, DecidableEq

/-- The two input files: paths, their content hashes, and the outcome of
parsing them (the parser is outside the verified core). -/
structure InputFiles where
  jobsPath : String
  invoicesPath : String
  jobsHash : String
  invoicesHash : String
  parseResult : Except String (List JobRow × List InvoiceRow)

/-- `filepath.Base`. -/
def filepathBase (p : String) : String :=
  (p.splitOn "/").getLastD p

/-- The deferred `tx.Rollback()`: the working copy (including the batch row
and any "failed" status update made inside the transaction) is discarded and
the database reverts to its state before `BeginTx`. -/
def rollbackTo (db0 : DB) (_tdbDiscarded : DB) : DB := db0

/-- The skipped-invoices warning appended by `ImportFiles` after validation. -/
def skippedInvoicesWarning (skipped missingCount : ℕ) : String :=
  s!"Skipped {skipped} invoices referencing {missingCount} jobs not in jobs report"

/-- Source method `ImportFiles`: hashes and dedup check, parse, one
transaction over batch creation, customers, jobs, technicians, invoices,
validation, job metrics, the non-fatal technician metrics, the success mark
and the commit.  Returns the resulting database state, the event trace, and
the result or error. -/
def ImportFiles (input : InputFiles) (fails : StepFailures) (db : DB) :
    DB × List ImportEvent × Except String ImportResult :=
  match getImportBatchByHashes db input.jobsHash input.invoicesHash with
  | some existing =>
    let r : ImportResult :=
      { batchID := existing.id
        jobsImported := 0
        invoicesImported := 0
        invoicesSkipped := 0
        customersUpserted := 0
        techniciansImported := 0
        jobMetricsCalculated := 0
        techMetricsCalculated := 0
        validationResult := none
        alreadyImported := true }
    (db, [], .ok r)
  | none =>
    match input.parseResult with
    | .error e => (db, [.parseFiles], .error ("failed to parse files: " ++ e))
    | .ok parsed =>
      let jobs := parsed.1
      let invoices := parsed.2
      match fails.beginTx with
      | some e => (db, [.parseFiles], .error ("failed to start transaction: " ++ e))
      | none =>
        match fails.createBatch with
        | some e => (db, [.parseFiles, .txBegin, .txRollback],
            .error ("failed to create import batch: " ++ e))
        | none =>
          let created := createImportBatch db (filepathBase input.jobsPath)
            (filepathBase input.invoicesPath) input.jobsHash input.invoicesHash
            (jobs.length : ℤ) (invoices.length : ℤ)
          let batch := created.1
          match fails.customers with
          | some e => (rollbackTo db (updateImportBatchStatus created.2 batch.id "failed" (some e)),
              [.parseFiles, .txBegin, .txRollback], .error ("failed to import customers: " ++ e))
          | none =>
            let custOut := importCustomers created.2 jobs
            match fails.jobs with
            | some e => (rollbackTo db (updateImportBatchStatus custOut.2 batch.id "failed" (some e)),
                [.parseFiles, .txBegin, .txRollback], .error ("failed to import jobs: " ++ e))
            | none =>
              let jobsOut := importJobs custOut.2 jobs batch.id
              match fails.technicians with
              | some e => (rollbackTo db (updateImportBatchStatus jobsOut.2 batch.id "failed" (some e)),
                  [.parseFiles, .txBegin, .txRollback],
                  .error ("failed to import technicians: " ++ e))
              | none =>
                match ImportTechnicians jobsOut.2 jobs batch.id with
                | .error e => (rollbackTo db (updateImportBatchStatus jobsOut.2 batch.id "failed" (some e)),
                    [.parseFiles, .txBegin, .txRollback],
                    .error ("failed to import technicians: " ++ e))
                | .ok techOut =>
                  match fails.invoices with
                  | some e => (rollbackTo db (updateImportBatchStatus techOut.2 batch.id "failed" (some e)),
                      [.parseFiles, .txBegin, .txRollback],
                      .error ("failed to import invoices: " ++ e))
                  | none =>
                    let invOut := importInvoices techOut.2 invoices batch.id jobsOut.1
                    match fails.validate with
                    | some e => (rollbackTo db (updateImportBatchStatus invOut.2.2.2 batch.id "failed" (some e)),
                        [.parseFiles, .txBegin, .txRollback],
                        .error ("validation failed: " ++ e))
                    | none =>
                      let vres0 := ValidateImport invOut.2.2.2 batch.id
                      let vres :=
                        if 0 < invOut.2.1 then
                          { vres0 with warnings := vres0.warnings ++
                              [skippedInvoicesWarning invOut.2.1 invOut.2.2.1.length] }
                        else vres0
                      match fails.jobMetrics with
                      | some e => (rollbackTo db (updateImportBatchStatus invOut.2.2.2 batch.id "failed" (some e)),
                          [.parseFiles, .txBegin, .txRollback],
                          .error ("failed to calculate job metrics: " ++ e))
                      | none =>
                        let jmOut := calculateAndSaveJobMetrics invOut.2.2.2 jobs invoices jobsOut.1
                        let tmOut :=
                          match fails.techMetrics with
                          | some _ => (0, jmOut.2)
                          | none => calculateAndSaveTechnicianMetrics jmOut.2 jobs batch.id
                        let warnEvents :=
                          match fails.techMetrics with
                          | some e =>
                            [ImportEvent.logTechMetricsWarning
                              ("failed to calculate technician metrics: " ++ e)]
                          | none => []
                        match fails.markSuccess with
                        | some e => (rollbackTo db tmOut.2,
                            [.parseFiles, .txBegin] ++ warnEvents ++ [.txRollback],
                            .error ("failed to update batch status: " ++ e))
                        | none =>
                          let final := updateImportBatchStatus tmOut.2 batch.id "success" none
                          match fails.commit with
                          | some e => (rollbackTo db final,
                              [.parseFiles, .txBegin] ++ warnEvents ++ [.txRollback],
                              .error ("failed to commit transaction: " ++ e))
                          | none =>
                            (final, [.parseFiles, .txBegin] ++ warnEvents ++ [.txCommit],
                              .ok { batchID := batch.id
                                    jobsImported := jobs.length
                                    invoicesImported := invOut.1
                                    invoicesSkipped := invOut.2.1
                                    customersUpserted := custOut.1
                                    techniciansImported := techOut.1
                                    jobMetricsCalculated := jmOut.1
                                    techMetricsCalculated := tmOut.1
                                    validationResult := some vres
                                    alreadyImported := false })

deriving instance DecidableEq for Except

/-! ## Claims about the batch importer -/

/-- C3: when a prior batch with the identical (job-file hash, invoice-file
hash) digest pair exists, `ImportFiles` returns `AlreadyImported = true` with
that prior batch's id, leaves the database unchanged (writes no new rows),
and emits no events: the files are not parsed and no transaction is opened. -/
theorem importFiles_dedup (input : InputFiles) (fails : StepFailures) (db : DB)
    (b : BatchRow)
    (hfound : getImportBatchByHashes db input.jobsHash input.invoicesHash = some b) :
    ImportFiles input fails db =
      (db, [], .ok
        { batchID := b.id
          jobsImported := 0
          invoicesImported := 0
          invoicesSkipped := 0
          customersUpserted := 0
          techniciansImported := 0
          jobMetricsCalculated := 0
          techMetricsCalculated := 0
          validationResult := none
          alreadyImported := true }) := by
  unfold ImportFiles
  rw [hfound]

/-- The prior successful batch of the C3 witness. -/
def c3batch : BatchRow := ⟨1, "jobs.csv", "invoices.csv", "h1", "h2", 3, 4, "success", none⟩

/-- Database state of the C3 witness: one committed batch. -/
def c3db : DB := ⟨[c3batch], [], [], [], [], [], [], [], 2, 1⟩

/-- Input files of the C3 witness: same digest pair as `c3batch`. -/
def c3input : InputFiles := ⟨"data/jobs.csv", "data/invoices.csv", "h1", "h2", .ok ([], [])⟩

/-- An all-success failure oracle. -/
def noFailures : StepFailures :=
  ⟨none, none, none, none, none, none, none, none, none, none, none⟩

/-- C3 witness: re-importing the file pair of the committed batch `c3batch`
short-circuits with its id, an unchanged database and an empty event trace. -/
theorem importFiles_dedup_witness :
    getImportBatchByHashes c3db c3input.jobsHash c3input.invoicesHash = some c3batch ∧
    ImportFiles c3input noFailures c3db =
      (c3db, [], .ok
        { batchID := 1
          jobsImported := 0
          invoicesImported := 0
          invoicesSkipped := 0
          customersUpserted := 0
          techniciansImported := 0
          jobMetricsCalculated := 0
          techMetricsCalculated := 0
          validationResult := none
          alreadyImported := true }) := by
  have hfound : getImportBatchByHashes c3db c3input.jobsHash c3input.invoicesHash
      = some c3batch := by decide
  exact ⟨hfound, importFiles_dedup c3input noFailures c3db c3batch hfound⟩

/-- C4 (amended): whenever `ImportFiles` returns an error, the database is
left exactly as it was before the call — no job, customer, invoice, metric or
batch row persists.  In particular the batch row with its "failed" status and
error message, written inside the transaction, is rolled back with everything
else and does NOT persist. -/
theorem ImportFiles_db_or_ok (input : InputFiles) (fails : StepFailures) (db : DB) :
    (ImportFiles input fails db).1 = db ∨
      ∃ r, (ImportFiles input fails db).2.2 = .ok r := by
  unfold ImportFiles
  dsimp only
  repeat' split
  all_goals first | exact Or.inl rfl | exact Or.inr ⟨_, rfl⟩

theorem importFiles_error_rollback (input : InputFiles) (fails : StepFailures)
    (db : DB) (e : String)
    (herr : (ImportFiles input fails db).2.2 = .error e) :
    (ImportFiles input fails db).1 = db := by
  rcases ImportFiles_db_or_ok input fails db with h | ⟨r, hr⟩
  · exact h
  · rw [herr] at hr
    exact absurd hr (by simp)

/-- Parsed job row of the C4 scenario. -/
def c4job : JobRow :=
  ⟨"J1", 10, some "Acme", "Install", "Completed", some 100, none, none, none,
    some 500, some 0, some 0, some 0⟩

/-- Parsed invoice row of the C4 scenario. -/
def c4inv : InvoiceRow := ⟨"I1", "J1", 100, some 200, false⟩

/-- Input files of the C4 scenario (hashes not seen before, parsing
succeeds). -/
def c4input : InputFiles := ⟨"jobs.csv", "invoices.csv", "jh", "ih", .ok ([c4job], [c4inv])⟩

/-- Failure oracle of the C4 scenario: the invoice-insert step fails (e.g. a
duplicate invoice id), everything before it succeeds. -/
def c4fails : StepFailures :=
  ⟨none, none, none, none, none, some "duplicate invoice id", none, none, none, none, none⟩

/-- Empty database of the C4 scenario. -/
def c4db : DB := ⟨[], [], [], [], [], [], [], [], 1, 1⟩

/-- C4 counterexample: when the invoice-insert step fails mid-batch,
`ImportFiles` returns the error, but the resulting database is exactly the
initial one: it contains NO batch row at all — in particular no batch row
with status "failed" persists, contrary to the claim. -/
theorem importFiles_invoice_failure_counterexample :
    (ImportFiles c4input c4fails c4db).2.2 =
      .error "failed to import invoices: duplicate invoice id" ∧
    (ImportFiles c4input c4fails c4db).1 = c4db ∧
    (ImportFiles c4input c4fails c4db).1.batches = [] := by
  have h : ImportFiles c4input c4fails c4db =
      (c4db, [.parseFiles, .txBegin, .txRollback],
        .error "failed to import invoices: duplicate invoice id") := by decide
  rw [h]
  exact ⟨rfl, rfl, rfl⟩

/-- C4 witness: the rollback theorem applied to the concrete invoice-failure
scenario. -/
theorem importFiles_error_rollback_witness :
    (ImportFiles c4input c4fails c4db).2.2 =
      .error "failed to import invoices: duplicate invoice id" ∧
    (ImportFiles c4input c4fails c4db).1 = c4db := by
  have herr : (ImportFiles c4input c4fails c4db).2.2 =
      .error "failed to import invoices: duplicate invoice id" := by decide
  exact ⟨herr, importFiles_error_rollback c4input c4fails c4db _ herr⟩

/-! Supporting lemmas about the invoice-import step. -/

theorem importJobs_fold (jobs : List JobRow) (batchID : ℤ) :
    ∀ p : List String × DB,
      (jobs.foldl (fun (acc : List String × DB) j =>
        (acc.1 ++ [j.jobID], { acc.2 with jobs := acc.2.jobs ++ [jobRowToDb j batchID] }))
        p).1 = p.1 ++ jobs.map (·.jobID) := by
  induction jobs with
  | nil => intro p; simp
  | cons j rest ih =>
    intro p
    simp only [List.foldl_cons, List.map_cons, ih]
    simp

theorem importJobs_validIDs (db : DB) (jobs : List JobRow) (batchID : ℤ) :
    (importJobs db jobs batchID).1 = jobs.map (·.jobID) := by
  unfold importJobs
  rw [importJobs_fold jobs batchID ([], db)]
  simp

theorem importInvoicesGo_spec (batchID : ℤ) (validJobIDs : List String) :
    ∀ (invoices : List InvoiceRow) (imported skipped : ℕ) (missing : List String) (db : DB),
      importInvoicesGo batchID validJobIDs invoices imported skipped missing db =
        (imported + (invoices.filter (fun i => validJobIDs.contains i.jobID)).length,
         skipped + (invoices.filter (fun i => !validJobIDs.contains i.jobID)).length,
         ((invoices.filter (fun i => !validJobIDs.contains i.jobID)).map (·.jobID)).foldl
           insertIfAbsent missing,
         { db with invoices := db.invoices ++ (invoices.filter (fun i => validJobIDs.contains i.jobID)).map (fun i => invoiceRowToDb i batchID) }) := by
  intro invoices
  induction invoices with
  | nil => intro imported skipped missing db; simp [importInvoicesGo]
  | cons inv rest ih =>
    intro imported skipped missing db
    by_cases hv : inv.jobID ∈ validJobIDs
    · rw [importInvoicesGo, if_neg (by simp [hv]), ih]
      simp only [List.filter_cons]
      simp [hv, List.append_assoc]
      omega
    · rw [importInvoicesGo, if_pos (by simp [hv]), ih]
      simp only [List.filter_cons]
      simp [hv]
      omega

theorem insertIfAbsent_fold_nodup (l : List String) :
    ∀ acc : List String, acc.Nodup → (l.foldl insertIfAbsent acc).Nodup := by
  induction l with
  | nil => intro acc h; exact h
  | cons x rest ih =>
    intro acc h
    rw [List.foldl_cons]
    apply ih
    unfold insertIfAbsent
    by_cases hx : x ∈ acc
    · rw [if_pos hx]; exact h
    · rw [if_neg hx]
      simp [List.nodup_append, h, hx]

theorem insertIfAbsent_fold_mem (l : List String) :
    ∀ (acc : List String) (s : String),
      s ∈ l.foldl insertIfAbsent acc ↔ s ∈ acc ∨ s ∈ l := by
  induction l with
  | nil => intro acc s; simp
  | cons x rest ih =>
    intro acc s
    rw [List.foldl_cons, ih]
    unfold insertIfAbsent
    by_cases hx : x ∈ acc
    · rw [if_pos hx]
      simp only [List.mem_cons]
      constructor
      · rintro (h | h)
        · exact Or.inl h
        · exact Or.inr (Or.inr h)
      · rintro (h | rfl | h)
        · exact Or.inl h
        · exact Or.inl hx
        · exact Or.inr h
    · rw [if_neg hx]
      simp only [List.mem_append, List.mem_singleton, List.mem_cons]
      tauto

/-! Supporting lemmas: the technician-import step succeeds when no technician
name field is whitespace-only. -/

/-- Whether one single-name technician field can be upserted: nil, empty
(skipped) or with a non-empty trimmed form. -/
def techNameFieldOk : Option String → Bool
  | none => true
  | some s => s == "" || !(s.trim == "")

/-- Whether every technician name field of every job row can be processed by
`ImportTechnicians` without the empty-name error. -/
def techNamesOk (jobs : List JobRow) : Bool :=
  jobs.all (fun j => techNameFieldOk j.soldBy && techNameFieldOk j.primaryTechnician &&
    (match j.assignedTechnicians with
     | none => true
     | some s => (splitTechnicianNames s).all (fun n => !(n.trim == ""))))

theorem upsertTechnician_ok (db : DB) (cache : List (String × ℤ)) (name : String)
    (jobDate : Option ℤ) (h : ¬ name.trim = "") :
    ∃ out, upsertTechnician db cache name jobDate = .ok out := by
  unfold upsertTechnician
  dsimp only
  rw [if_neg h]
  split
  · exact ⟨_, rfl⟩
  · split
    · exact ⟨_, rfl⟩
    · exact ⟨_, rfl⟩

theorem processRoleField_ok (db : DB) (cache : List (String × ℤ)) (jobID : String)
    (field : Option String) (role : String) (date : Option ℤ)
    (h : techNameFieldOk field = true) :
    ∃ out, processRoleField db cache jobID field role date = .ok out := by
  rcases field with _ | s
  · exact ⟨_, rfl⟩
  · simp only [techNameFieldOk, Bool.or_eq_true, beq_iff_eq, Bool.not_eq_eq_eq_not,
      Bool.not_true, beq_eq_false_iff_ne, ne_eq] at h
    unfold processRoleField
    dsimp only
    by_cases hs : s = ""
    · rw [if_pos hs]
      exact ⟨_, rfl⟩
    · rw [if_neg hs]
      obtain ⟨out, hout⟩ := upsertTechnician_ok db cache s date (h.resolve_left hs)
      rw [hout]
      exact ⟨_, rfl⟩

theorem processAssigned_ok (jobID : String) (date : Option ℤ) (names : List String)
    (h : ∀ n ∈ names, ¬ n.trim = "") :
    ∀ (db : DB) (cache : List (String × ℤ)),
      ∃ out, processAssigned jobID date names db cache = .ok out := by
  induction names with
  | nil => intro db cache; exact ⟨_, rfl⟩
  | cons n rest ih =>
    intro db cache
    obtain ⟨out, hout⟩ := upsertTechnician_ok db cache n date
      (h n (List.mem_cons_self n rest))
    rw [processAssigned, hout]
    exact ih (fun x hx => h x (List.mem_cons_of_mem _ hx)) _ _

theorem importTechniciansGo_ok (jobs : List JobRow) (h : techNamesOk jobs = true) :
    ∀ (db : DB) (cache : List (String × ℤ)),
      ∃ out, importTechniciansGo jobs db cache = .ok out := by
  induction jobs with
  | nil => intro db cache; exact ⟨_, rfl⟩
  | cons job rest ih =>
    intro db cache
    rw [techNamesOk, List.all_cons, Bool.and_eq_true, Bool.and_eq_true, Bool.and_eq_true] at h
    obtain ⟨⟨⟨hsold, hprim⟩, hassigned⟩, hrest⟩ := h
    obtain ⟨out1, hout1⟩ := processRoleField_ok db cache job.jobID job.soldBy "sold_by"
      job.jobCompletionDate hsold
    obtain ⟨out2, hout2⟩ := processRoleField_ok out1.1 out1.2 job.jobID job.primaryTechnician
      "primary" job.jobCompletionDate hprim
    have hnames : ∀ n ∈ (match job.assignedTechnicians with
        | none => ([] : List String)
        | some s => if s = "" then [] else splitTechnicianNames s), ¬ n.trim = "" := by
      intro n hn
      rcases ha : job.assignedTechnicians with _ | s
      · rw [ha] at hn
        simp at hn
      · rw [ha] at hn hassigned
        dsimp only at hn hassigned
        by_cases hs : s = ""
        · rw [if_pos hs] at hn
          simp at hn
        · rw [if_neg hs] at hn
          have := List.all_eq_true.mp hassigned n hn
          simpa using this
    obtain ⟨out3, hout3⟩ := processAssigned_ok job.jobID job.jobCompletionDate _ hnames out2.1 out2.2
    rw [importTechniciansGo, hout1]
    dsimp only
    rw [hout2]
    dsimp only
    rw [hout3]
    exact ih hrest _ _

theorem importTechnicians_ok (db : DB) (jobs : List JobRow) (batchID : ℤ)
    (h : techNamesOk jobs = true) :
    ∃ out, ImportTechnicians db jobs batchID = .ok out := by
  obtain ⟨out, hout⟩ := importTechniciansGo_ok jobs h db []
  rw [ImportTechnicians, hout]
  exact ⟨_, rfl⟩

/-- C5: an invoice whose job id is not among the ids inserted by the current
batch is not inserted (only invoices with valid job ids are appended to the
invoices table), `InvoicesSkipped` counts exactly one per such invoice, the
recorded missing job ids are exactly the distinct skipped job ids, and — on a
run where every transactional step succeeds — the result's warning list
carries the warning naming the skipped-invoice count and the distinct
missing-job-id count. -/
theorem importFiles_orphan_invoices :
    (∀ (db : DB) (invoices : List InvoiceRow) (batchID : ℤ) (validJobIDs : List String),
      (importInvoices db invoices batchID validJobIDs).1 =
        (invoices.filter (fun i => validJobIDs.contains i.jobID)).length ∧
      (importInvoices db invoices batchID validJobIDs).2.1 =
        (invoices.filter (fun i => !validJobIDs.contains i.jobID)).length ∧
      (importInvoices db invoices batchID validJobIDs).2.2.2 =
        { db with invoices := db.invoices ++ (invoices.filter (fun i => validJobIDs.contains i.jobID)).map (fun i => invoiceRowToDb i batchID) } ∧
      (importInvoices db invoices batchID validJobIDs).2.2.1.Nodup ∧
      (∀ s, s ∈ (importInvoices db invoices batchID validJobIDs).2.2.1 ↔
        s ∈ (invoices.filter (fun i => !validJobIDs.contains i.jobID)).map (·.jobID))) ∧
    (∀ (input : InputFiles) (fails : StepFailures) (db : DB)
        (jobs : List JobRow) (invoices : List InvoiceRow),
      getImportBatchByHashes db input.jobsHash input.invoicesHash = none →
      input.parseResult = .ok (jobs, invoices) →
      fails.beginTx = none → fails.createBatch = none → fails.customers = none →
      fails.jobs = none → fails.technicians = none → techNamesOk jobs = true →
      fails.invoices = none → fails.validate = none → fails.jobMetrics = none →
      fails.techMetrics = none → fails.markSuccess = none → fails.commit = none →
      ∃ r, (ImportFiles input fails db).2.2 = .ok r ∧
        r.alreadyImported = false ∧
        r.invoicesImported =
          (invoices.filter (fun i => (jobs.map (·.jobID)).contains i.jobID)).length ∧
        r.invoicesSkipped =
          (invoices.filter (fun i => !(jobs.map (·.jobID)).contains i.jobID)).length ∧
        (0 < r.invoicesSkipped →
          ∃ vr, r.validationResult = some vr ∧
            skippedInvoicesWarning r.invoicesSkipped
              (((invoices.filter (fun i => !(jobs.map (·.jobID)).contains i.jobID)).map
                (·.jobID)).foldl insertIfAbsent []).length ∈ vr.warnings)) := by
  constructor
  · intro db invoices batchID validJobIDs
    rw [importInvoices, importInvoicesGo_spec]
    refine ⟨by simp, by simp, by simp, ?_, ?_⟩
    · exact insertIfAbsent_fold_nodup _ [] List.nodup_nil
    · intro s
      rw [insertIfAbsent_fold_mem]
      simp
  · intro input fails db jobs invoices hnone hparse hbt hcb hcu hj ht htech hinv
      hval hjm htm hms hcm
    simp only [ImportFiles, hnone, hparse, hbt, hcb, hcu, hj, ht, hinv, hval, hjm,
      htm, hms, hcm]
    split
    · rename_i e heq
      obtain ⟨out, hout⟩ := importTechnicians_ok _ jobs _ htech
      rw [hout] at heq
      simp at heq
    · rename_i techOut heq
      rw [importJobs_validIDs]
      refine ⟨_, rfl, rfl, ?_, ?_, ?_⟩
      · rw [importInvoices, importInvoicesGo_spec]
        simp
      · rw [importInvoices, importInvoicesGo_spec]
        simp
      · intro hpos
        rw [importInvoices, importInvoicesGo_spec] at hpos ⊢
        simp only [Nat.zero_add] at hpos ⊢
        rw [if_pos hpos]
        refine ⟨_, rfl, ?_⟩
        apply List.mem_append_right
        simp

/-- Parsed job row of the C5 witness. -/
def c5job : JobRow :=
  ⟨"J1", 10, some "Acme", "Install", "Completed", some 100, none, none, none,
    some 500, some 0, some 0, some 0⟩

/-- Invoices of the C5 witness: one valid, one referencing an absent job. -/
def c5invoices : List InvoiceRow :=
  [⟨"I1", "J1", 100, some 200, false⟩, ⟨"I2", "ZZ", 101, some 50, false⟩]

/-- Input files of the C5 witness. -/
def c5input : InputFiles :=
  ⟨"jobs.csv", "invoices.csv", "jh5", "ih5", .ok ([c5job], c5invoices)⟩

/-- Empty database of the C5 witness. -/
def c5db : DB := ⟨[], [], [], [], [], [], [], [], 1, 1⟩

/-- C5 witness: the orphan-invoice run with one valid and one orphan invoice;
the orphan is skipped and the warning names 1 skipped invoice and 1 distinct
missing job id. -/
theorem importFiles_orphan_invoices_witness :
    ∃ r, (ImportFiles c5input noFailures c5db).2.2 = .ok r ∧
      r.alreadyImported = false ∧
      r.invoicesImported =
        (c5invoices.filter (fun i => (([c5job]).map (·.jobID)).contains i.jobID)).length ∧
      r.invoicesSkipped =
        (c5invoices.filter (fun i => !(([c5job]).map (·.jobID)).contains i.jobID)).length ∧
      (0 < r.invoicesSkipped →
        ∃ vr, r.validationResult = some vr ∧
          skippedInvoicesWarning r.invoicesSkipped
            (((c5invoices.filter (fun i => !(([c5job]).map (·.jobID)).contains i.jobID)).map
              (·.jobID)).foldl insertIfAbsent []).length ∈ vr.warnings) :=
  importFiles_orphan_invoices.2 c5input noFailures c5db [c5job] c5invoices
    (by decide) rfl rfl rfl rfl rfl rfl (by decide) rfl rfl rfl rfl rfl rfl

/-! Supporting lemmas: no step between batch creation and the success mark
touches the `import_batches` table. -/

theorem upsertCustomer_batches (db : DB) (c : CustomerRow) :
    (upsertCustomer db c).batches = db.batches := by
  unfold upsertCustomer
  split <;> rfl

theorem importCustomers_fold_batches (jobs : List JobRow) :
    ∀ (cids : List ℤ) (p : ℕ × DB),
      ((cids.foldl (fun (acc : ℕ × DB) cid =>
        match customerRep jobs cid with
        | none => acc
        | some job =>
          let dates := customerDates jobs cid
          (acc.1 + 1, upsertCustomer acc.2 ⟨cid, stringOrEmpty job.customerName,
            dates.1, dates.2⟩)) p).2).batches = p.2.batches := by
  intro cids
  induction cids with
  | nil => intro p; rfl
  | cons c rest ih =>
    intro p
    rw [List.foldl_cons, ih]
    rcases h : customerRep jobs c with _ | job
    · simp [h]
    · simp [h, upsertCustomer_batches]

theorem importCustomers_batches (db : DB) (jobs : List JobRow) :
    (importCustomers db jobs).2.batches = db.batches :=
  importCustomers_fold_batches jobs _ (0, db)

theorem importJobs_fold_batches (jobs : List JobRow) (batchID : ℤ) :
    ∀ p : List String × DB,
      ((jobs.foldl (fun (acc : List String × DB) j =>
        (acc.1 ++ [j.jobID], { acc.2 with jobs := acc.2.jobs ++ [jobRowToDb j batchID] }))
        p).2).batches = p.2.batches := by
  induction jobs with
  | nil => intro p; rfl
  | cons j rest ih =>
    intro p
    rw [List.foldl_cons, ih]

theorem importJobs_batches (db : DB) (jobs : List JobRow) (batchID : ℤ) :
    (importJobs db jobs batchID).2.batches = db.batches :=
  importJobs_fold_batches jobs batchID ([], db)

theorem upsertTechnician_batches (db : DB) (cache : List (String × ℤ)) (name : String)
    (date : Option ℤ) (out : ℤ × DB × List (String × ℤ))
    (h : upsertTechnician db cache name date = .ok out) :
    out.2.1.batches = db.batches := by
  unfold upsertTechnician at h
  dsimp only at h
  by_cases hn : name.trim = ""
  · rw [if_pos hn] at h
    simp at h
  · rw [if_neg hn] at h
    split at h
    · cases h
      rfl
    · split at h
      · cases h
        rfl
      · cases h
        rfl

theorem createJobTechnician_batches (db : DB) (jobID : String) (tid : ℤ) (role : String) :
    (createJobTechnician db jobID tid role).batches = db.batches := by
  unfold createJobTechnician
  split <;> rfl

theorem processRoleField_batches (db : DB) (cache : List (String × ℤ)) (jobID : String)
    (field : Option String) (role : String) (date : Option ℤ)
    (out : DB × List (String × ℤ))
    (h : processRoleField db cache jobID field role date = .ok out) :
    out.1.batches = db.batches := by
  unfold processRoleField at h
  rcases field with _ | s
  · cases h
    rfl
  · dsimp only at h
    by_cases hs : s = ""
    · rw [if_pos hs] at h
      cases h
      rfl
    · rw [if_neg hs] at h
      split at h
      · simp at h
      · rename_i out1 heq
        cases h
        rw [createJobTechnician_batches]
        exact upsertTechnician_batches db cache s date out1 heq

theorem processAssigned_batches (jobID : String) (date : Option ℤ) :
    ∀ (names : List String) (db : DB) (cache : List (String × ℤ))
      (out : DB × List (String × ℤ)),
      processAssigned jobID date names db cache = .ok out →
      out.1.batches = db.batches := by
  intro names
  induction names with
  | nil =>
    intro db cache out h
    cases h
    rfl
  | cons n rest ih =>
    intro db cache out h
    rw [processAssigned] at h
    split at h
    · simp at h
    · rename_i out1 heq
      rw [ih _ _ out h, createJobTechnician_batches]
      exact upsertTechnician_batches db cache n date out1 heq

theorem importTechniciansGo_batches :
    ∀ (jobs : List JobRow) (db : DB) (cache : List (String × ℤ))
      (out : DB × List (String × ℤ)),
      importTechniciansGo jobs db cache = .ok out →
      out.1.batches = db.batches := by
  intro jobs
  induction jobs with
  | nil =>
    intro db cache out h
    cases h
    rfl
  | cons job rest ih =>
    intro db cache out h
    rw [importTechniciansGo] at h
    split at h
    · simp at h
    · rename_i out1 heq1
      split at h
      · simp at h
      · rename_i out2 heq2
        dsimp only at h
        split at h
        · simp at h
        · rename_i out3 heq3
          rw [ih _ _ out h,
            processAssigned_batches job.jobID job.jobCompletionDate _ _ _ out3 heq3,
            processRoleField_batches out1.1 out1.2 job.jobID job.primaryTechnician
              "primary" job.jobCompletionDate out2 heq2,
            processRoleField_batches db cache job.jobID job.soldBy "sold_by"
              job.jobCompletionDate out1 heq1]

theorem ImportTechnicians_batches (db : DB) (jobs : List JobRow) (batchID : ℤ)
    (out : ℕ × DB) (h : ImportTechnicians db jobs batchID = .ok out) :
    out.2.batches = db.batches := by
  unfold ImportTechnicians at h
  split at h
  · simp at h
  · rename_i g heq
    cases h
    exact importTechniciansGo_batches jobs db [] g heq

theorem importInvoicesGo_batches (batchID : ℤ) (validJobIDs : List String) :
    ∀ (invs : List InvoiceRow) (imported skipped : ℕ) (missing : List String) (db : DB),
      (importInvoicesGo batchID validJobIDs invs imported skipped missing db).2.2.2.batches
        = db.batches := by
  intro invs
  induction invs with
  | nil => intro imported skipped missing db; rfl
  | cons inv rest ih =>
    intro imported skipped missing db
    rw [importInvoicesGo]
    split
    · rw [ih]
    · rw [ih]

theorem importInvoices_batches (db : DB) (invs : List InvoiceRow) (batchID : ℤ)
    (valid : List String) :
    (importInvoices db invs batchID valid).2.2.2.batches = db.batches := by
  unfold importInvoices
  exact importInvoicesGo_batches batchID valid invs 0 0 [] db

theorem calculateAndSaveJobMetrics_batches (db : DB) (jobs : List JobRow)
    (invoices : List InvoiceRow) (valid : List String) :
    (calculateAndSaveJobMetrics db jobs invoices valid).2.batches = db.batches := rfl

theorem calculateAndSaveTechnicianMetrics_batches (db : DB) (jobs : List JobRow)
    (batchID : ℤ) :
    (calculateAndSaveTechnicianMetrics db jobs batchID).2.batches = db.batches := by
  unfold calculateAndSaveTechnicianMetrics
  dsimp only
  split <;> rfl

theorem createImportBatch_batches (db : DB) (a b c d : String) (x y : ℤ) :
    (createImportBatch db a b c d x y).2.batches =
      db.batches ++ [(createImportBatch db a b c d x y).1] := rfl

/-- C9: a failure while calculating technician metrics is non-fatal: with
every other step succeeding, `ImportFiles` logs the warning
"failed to calculate technician metrics: <e>", still commits the
transaction, returns a successful result with `TechMetricsCalculated = 0`
and `AlreadyImported = false`, and the committed database holds the batch
row marked "success" with no error message. -/
theorem importFiles_techMetrics_nonfatal (input : InputFiles) (fails : StepFailures)
    (db : DB) (jobs : List JobRow) (invoices : List InvoiceRow) (e : String)
    (hnone : getImportBatchByHashes db input.jobsHash input.invoicesHash = none)
    (hparse : input.parseResult = .ok (jobs, invoices))
    (hbt : fails.beginTx = none) (hcb : fails.createBatch = none)
    (hcu : fails.customers = none) (hj : fails.jobs = none)
    (ht : fails.technicians = none) (htech : techNamesOk jobs = true)
    (hinv : fails.invoices = none) (hval : fails.validate = none)
    (hjm : fails.jobMetrics = none) (htm : fails.techMetrics = some e)
    (hms : fails.markSuccess = none) (hcm : fails.commit = none) :
    ∃ r, (ImportFiles input fails db).2.2 = .ok r ∧
      r.alreadyImported = false ∧
      r.techMetricsCalculated = 0 ∧
      ImportEvent.logTechMetricsWarning
          ("failed to calculate technician metrics: " ++ e) ∈
        (ImportFiles input fails db).2.1 ∧
      ImportEvent.txCommit ∈ (ImportFiles input fails db).2.1 ∧
      ∃ b ∈ (ImportFiles input fails db).1.batches,
        b.id = r.batchID ∧ b.status = "success" ∧ b.errorMessage = none := by
  simp only [ImportFiles, hnone, hparse, hbt, hcb, hcu, hj, ht, hinv, hval, hjm,
    htm, hms, hcm]
  split
  · rename_i e2 heq
    obtain ⟨out, hout⟩ := importTechnicians_ok _ jobs _ htech
    rw [hout] at heq
    simp at heq
  · rename_i techOut heq
    refine ⟨_, rfl, rfl, rfl, ?_, ?_, ?_⟩
    · simp
    · simp
    · have htb := ImportTechnicians_batches _ _ _ _ heq
      simp only [updateImportBatchStatus, calculateAndSaveJobMetrics_batches,
        importInvoices_batches, htb, importJobs_batches, importCustomers_batches,
        createImportBatch_batches]
      refine ⟨_, List.mem_map_of_mem _
        (List.mem_append_right _ (List.mem_singleton_self _)), ?_, ?_, ?_⟩
      · simp
      · simp
      · simp

/-- Parsed job row of the C9 witness. -/
def c9job : JobRow :=
  ⟨"J9", 20, some "Bob", "Repair", "Completed", some 100, none, none, none,
    some 500, some 0, some 0, some 0⟩

/-- Input files of the C9 witness. -/
def c9input : InputFiles :=
  ⟨"jobs.csv", "invoices.csv", "jh9", "ih9", .ok ([c9job], [])⟩

/-- Empty database of the C9 witness. -/
def c9db : DB := ⟨[], [], [], [], [], [], [], [], 1, 1⟩

/-- A failure oracle of the C9 witness: only the technician-metrics step
fails. -/
def c9fails : StepFailures :=
  ⟨none, none, none, none, none, none, none, none, some "boom", none, none⟩

/-- C9 witness: with only the technician-metrics step failing, the run
commits, warns, reports zero technician metrics, and the batch row is marked
"success". -/
theorem importFiles_techMetrics_nonfatal_witness :
    ∃ r, (ImportFiles c9input c9fails c9db).2.2 = .ok r ∧
      r.alreadyImported = false ∧
      r.techMetricsCalculated = 0 ∧
      ImportEvent.logTechMetricsWarning
          ("failed to calculate technician metrics: " ++ "boom") ∈
        (ImportFiles c9input c9fails c9db).2.1 ∧
      ImportEvent.txCommit ∈ (ImportFiles c9input c9fails c9db).2.1 ∧
      ∃ b ∈ (ImportFiles c9input c9fails c9db).1.batches,
        b.id = r.batchID ∧ b.status = "success" ∧ b.errorMessage = none :=
  importFiles_techMetrics_nonfatal c9input c9fails c9db [c9job] [] "boom"
    rfl rfl rfl rfl rfl rfl rfl (by decide) rfl rfl rfl rfl rfl rfl

end Sta
